import Mathlib

/-!
Shallow embedding of the battle engine in `game_logic.py` (command-battle-game).

The Python module defines a 12-turn two-fighter battle engine:
  * `Command` / `Character` enumerations,
  * a mutable `Fighter` dataclass (hearts, pressure, skip flags),
  * `resolve_turn`, which resolves one turn and mutates both fighters,
  * `run_battle`, which folds `resolve_turn` over 12 planned turns and
    applies termination checks and a sudden-death coin flip.

Mutation is modelled by explicit state passing.  Every float the source
manipulates (hearts, damages) is an exact multiple of 0.5, and the only
operations on them are addition, subtraction, comparison and `max`, all exact
in binary floating point at these magnitudes; they are therefore modelled
exactly in HALF-HEART UNITS: a model value `n : ℤ` stands for the source
float `n / 2`, and every numeric constant of the source appears scaled by 2
(`0.5` -> `1`, `1.0` -> `2`, `2.0` -> `4`, `3.0` -> `6`).  Scaling by 2 is an
order isomorphism, so comparisons, `max` and the termination checks are
preserved verbatim.  The Python `int` field `pressure` is modelled by `ℤ`
unscaled.  The `IndexError` that Python raises when a plan is shorter than
the turn index is modelled by `Option` (`none` = the invocation fails with an
error).
-/

/-- `Command` enum (game_logic.py lines 8-13). -/
inductive Command where
  | ATTACK
  | BLOCK
  | COUNTER
  | IDLE
  | NONE
deriving DecidableEq, Fintype

/-- `Command.value` (the string payload of the Python enum). -/
def Command.value : Command → String
  | .ATTACK => "A"
  | .BLOCK => "B"
  | .COUNTER => "C"
  | .IDLE => "I"
  | .NONE => "-"

/-- `Character` enum (game_logic.py lines 16-26). -/
inductive Character where
  | NORMAL
  | RED_FIGHTER
  | BLUE_HIJUMP
  | BROWN_STONE
  | GREEN_PLASMA
  | WHITE_MIRROR
  | ORANGE_FIRE
  | YELLOW_BEAM
  | PURPLE_NINJA
deriving DecidableEq, Fintype

/-- `Fighter` dataclass (game_logic.py lines 43-54), with the same defaults. -/
structure Fighter where
  name : String
  character : Character := Character.NORMAL
  /-- hearts in half-heart units: 6 here is the source's `3.0`. -/
  hearts : ℤ := 6
  skip_next : Bool := false
  skip_reason : Option String := none
  pressure : ℤ := 0
  dealt_damage_last_turn : Bool := false
deriving DecidableEq

/-- `BattleResult` dataclass (game_logic.py lines 57-61). -/
structure BattleResult where
  winner : Option String
  reason : String
  log : List String
deriving DecidableEq

/-- `TurnOutcome` dataclass (game_logic.py lines 64-71). -/
structure TurnOutcome where
  turn_index : ℕ
  p_cmd : Command
  c_cmd : Command
  /-- damage dealt to the player this turn, in half-heart units. -/
  p_delta : ℤ
  /-- damage dealt to the cpu this turn, in half-heart units. -/
  c_delta : ℤ
  text : String
deriving DecidableEq

/-- `apply_damage` (game_logic.py lines 74-75): hearts floored at 0. -/
def apply_damage (target : Fighter) (amount : ℤ) : Fighter :=
  { target with hearts := max 0 (target.hearts - amount) }

/-- `counter_damage` (game_logic.py lines 194-195), reading the countering
fighter's character. -/
def counter_damage (counter_user : Character) : ℤ :=
  if counter_user == Character.WHITE_MIRROR then 4 else 2

/-- `update_pressure` (game_logic.py lines 301-307; the identical nested copy
at lines 179-185 is used by the clash branch). -/
def update_pressure (f : Fighter) (took : ℤ) (dealt : Bool) : Fighter :=
  if 0 < took ∧ dealt = false then { f with pressure := f.pressure + 1 }
  else if dealt = true then { f with pressure := max 0 (f.pressure - 1) }
  else { f with pressure := max 0 (f.pressure - 1) }

/-- The damage/flag outputs of one turn's resolution (the numeric side of
game_logic.py lines 123-299, separated from the narration strings).
`p_damage`/`c_damage` are the final (post-invincibility) damages, which are
both applied to hearts and reported in the `TurnOutcome` deltas;
`p_damage_pre`/`c_damage_pre` are the values accumulated before the
invincibility zeroing (needed only to reproduce the narration conditions).
`p_failed_counter` records that the code set `skip_next`/`skip_reason` for
the player inside the failed-counter branch (lines 210-213), similarly
`c_failed_counter` (lines 226-229). -/
structure TurnEffects where
  p_damage : ℤ
  c_damage : ℤ
  p_damage_pre : ℤ
  c_damage_pre : ℤ
  p_dealt : Bool
  c_dealt : Bool
  p_failed_counter : Bool
  c_failed_counter : Bool
deriving DecidableEq

/-- Damage computation of `resolve_turn` (game_logic.py lines 123-299), a
function of the two effective commands, the two characters, and the two
invincibility flags computed in lines 99-115.  Follows the source order:
Beam double-idle (145-154), Attack-vs-Attack clash with early return
(157-190), counter resolution (194-229), attack negation (234-243), attack
application (248-291), invincibility zeroing (293-299). -/
def turnEffects (p_cmd c_cmd : Command) (p_char c_char : Character)
    (p_invincible c_invincible : Bool) : TurnEffects :=
  let p_damage : ℤ := 0
  let c_damage : ℤ := 0
  let p_dealt := false
  let c_dealt := false
  -- Yellow Beam: both IDLE (lines 145-154)
  let bd1 :=
    if p_cmd == Command.IDLE && c_cmd == Command.IDLE && p_char == Character.YELLOW_BEAM then
      (c_damage + 2, true)
    else (c_damage, p_dealt)
  let c_damage := bd1.1
  let p_dealt := bd1.2
  let bd2 :=
    if p_cmd == Command.IDLE && c_cmd == Command.IDLE && c_char == Character.YELLOW_BEAM then
      (p_damage + 2, true)
    else (p_damage, c_dealt)
  let p_damage := bd2.1
  let c_dealt := bd2.2
  -- Purple Ninja: Attack vs Attack special case, early return (lines 157-190)
  if p_cmd == Command.ATTACK && c_cmd == Command.ATTACK then
    let n1 :=
      if p_char == Character.PURPLE_NINJA then (c_damage + 1, true) else (c_damage, p_dealt)
    let c_damage := n1.1
    let p_dealt := n1.2
    let n2 :=
      if c_char == Character.PURPLE_NINJA then (p_damage + 1, true) else (p_damage, c_dealt)
    let p_damage := n2.1
    let c_dealt := n2.2
    let p_final := if p_invincible then 0 else p_damage
    let c_final := if c_invincible then 0 else c_damage
    ⟨p_final, c_final, p_damage, c_damage, p_dealt, c_dealt, false, false⟩
  else
    -- Player counter (lines 198-213)
    let pc :=
      if p_cmd == Command.COUNTER then
        if c_cmd == Command.ATTACK then
          let dmg := counter_damage p_char
          let c_damage := c_damage + dmg
          let c_damage :=
            if p_char == Character.GREEN_PLASMA && c_char != Character.ORANGE_FIRE then
              c_damage + 1
            else c_damage
          (c_damage, true, false)
        else (c_damage, p_dealt, true)
      else (c_damage, p_dealt, false)
    let c_damage := pc.1
    let p_dealt := pc.2.1
    let p_failed_counter := pc.2.2
    -- CPU counter (lines 216-229)
    let cc :=
      if c_cmd == Command.COUNTER then
        if p_cmd == Command.ATTACK then
          let dmg := counter_damage c_char
          let p_damage := p_damage + dmg
          let p_damage :=
            if c_char == Character.GREEN_PLASMA && p_char != Character.ORANGE_FIRE then
              p_damage + 1
            else p_damage
          (p_damage, true, false)
        else (p_damage, c_dealt, true)
      else (p_damage, c_dealt, false)
    let p_damage := cc.1
    let c_dealt := cc.2.1
    let c_failed_counter := cc.2.2
    -- Attack negation (lines 234-243)
    let player_attack_negated :=
      c_cmd == Command.COUNTER && p_cmd == Command.ATTACK && p_char != Character.ORANGE_FIRE
    let cpu_attack_negated :=
      p_cmd == Command.COUNTER && c_cmd == Command.ATTACK && c_char != Character.ORANGE_FIRE
    -- Player attack (lines 248-269)
    let pa :=
      if p_cmd == Command.ATTACK && !player_attack_negated then
        if c_cmd == Command.BLOCK then
          let blocked_damage : ℤ := if c_char == Character.BROWN_STONE then 0 else 1
          let b1 :=
            if blocked_damage == 0 then (c_damage, p_dealt)
            else (c_damage + blocked_damage, true)
          let c_damage := b1.1
          let p_dealt := b1.2
          let b2 :=
            if c_char == Character.GREEN_PLASMA then (p_damage + 1, true)
            else (p_damage, c_dealt)
          (b2.1, c_damage, p_dealt, b2.2)
        else if c_cmd == Command.NONE || c_cmd == Command.IDLE ||
                c_cmd == Command.ATTACK || c_cmd == Command.COUNTER then
          (p_damage, c_damage + 2, true, c_dealt)
        else (p_damage, c_damage, p_dealt, c_dealt)
      else (p_damage, c_damage, p_dealt, c_dealt)
    let p_damage := pa.1
    let c_damage := pa.2.1
    let p_dealt := pa.2.2.1
    let c_dealt := pa.2.2.2
    -- CPU attack (lines 272-291)
    let ca :=
      if c_cmd == Command.ATTACK && !cpu_attack_negated then
        if p_cmd == Command.BLOCK then
          let blocked_damage : ℤ := if p_char == Character.BROWN_STONE then 0 else 1
          let b1 :=
            if blocked_damage == 0 then (p_damage, c_dealt)
            else (p_damage + blocked_damage, true)
          let p_damage := b1.1
          let c_dealt := b1.2
          let b2 :=
            if p_char == Character.GREEN_PLASMA then (c_damage + 1, true)
            else (c_damage, p_dealt)
          (p_damage, b2.1, b2.2, c_dealt)
        else if p_cmd == Command.NONE || p_cmd == Command.IDLE ||
                p_cmd == Command.ATTACK || p_cmd == Command.COUNTER then
          (p_damage + 2, c_damage, p_dealt, true)
        else (p_damage, c_damage, p_dealt, c_dealt)
      else (p_damage, c_damage, p_dealt, c_dealt)
    let p_damage := ca.1
    let c_damage := ca.2.1
    let p_dealt := ca.2.2.1
    let c_dealt := ca.2.2.2
    -- Invincibility zeroing (lines 294-299)
    let p_final := if p_invincible && decide (0 < p_damage) then 0 else p_damage
    let c_final := if c_invincible && decide (0 < c_damage) then 0 else c_damage
    ⟨p_final, c_final, p_damage, c_damage, p_dealt, c_dealt,
     p_failed_counter, c_failed_counter⟩

/-- Substring test used to mirror Python's `"takes" in s` (game_logic.py
line 317-327): `s.splitOn pat` has more than one piece iff `pat` occurs. -/
def contains_sub (s pat : String) : Bool :=
  (s.splitOn pat).length > 1

/-- Python `{x:g}` formatting of a half-heart-scaled value (source float
`q / 2`): `1.0 -> "1"`, `2.0 -> "2"`, `0.5 -> "0.5"`. -/
def g_str (q : ℤ) : String :=
  if q % 2 == 0 then toString (q / 2) else toString (q / 2) ++ ".5"

/-- Python `str(float)` of a half-heart-scaled value (source float `q / 2`):
`6 -> "3.0"`, `5 -> "2.5"`. -/
def float_str (q : ℤ) : String :=
  if q % 2 == 0 then toString (q / 2) ++ ".0" else toString (q / 2) ++ ".5"

/-- The `text_parts` narration of `resolve_turn` (game_logic.py lines
125-330), assembled under exactly the branch conditions of the source and
joined with a single space.  Uses `turnEffects` for the pre-invincibility
damage totals that the invincibility notices test (lines 294-299). -/
def turn_text (p_name c_name : String) (p_cmd c_cmd : Command)
    (p_char c_char : Character) (p_invincible c_invincible : Bool) : String :=
  let eff := turnEffects p_cmd c_cmd p_char c_char p_invincible c_invincible
  -- recovery notices (lines 132-142)
  let parts : List String :=
    (if p_cmd == Command.NONE then
      [if p_invincible then s!"{p_name} is recovering (SKIP) — INVINCIBLE!"
       else s!"{p_name} is recovering (SKIP)."]
     else []) ++
    (if c_cmd == Command.NONE then
      [if c_invincible then s!"{c_name} is recovering (SKIP) — INVINCIBLE!"
       else s!"{c_name} is recovering (SKIP)."]
     else [])
  -- Beam messages (lines 145-153)
  let parts := parts ++
    (if p_cmd == Command.IDLE && c_cmd == Command.IDLE && p_char == Character.YELLOW_BEAM then
      [s!"{p_name}\x27s BEAM triggers on double IDLE: {c_name} takes 1."]
     else []) ++
    (if p_cmd == Command.IDLE && c_cmd == Command.IDLE && c_char == Character.YELLOW_BEAM then
      [s!"{c_name}\x27s BEAM triggers on double IDLE: {p_name} takes 1."]
     else [])
  let parts :=
    if p_cmd == Command.ATTACK && c_cmd == Command.ATTACK then
      -- clash branch (lines 157-168)
      parts ++ ["Both attacked—clash!"] ++
      (if p_char == Character.PURPLE_NINJA then
        [s!"{p_name}\x27s NINJA technique clips through: {c_name} takes 0.5."]
       else []) ++
      (if c_char == Character.PURPLE_NINJA then
        [s!"{c_name}\x27s NINJA technique clips through: {p_name} takes 0.5."]
       else [])
    else
      -- counter messages (lines 198-229)
      let parts := parts ++
        (if p_cmd == Command.COUNTER then
          if c_cmd == Command.ATTACK then
            [s!"{p_name} COUNTERED! {c_name} takes {g_str (counter_damage p_char)}."] ++
            (if p_char == Character.GREEN_PLASMA && c_char != Character.ORANGE_FIRE then
              [s!"{p_name}\x27s PLASMA adds +0.5: {c_name} takes 0.5 more."]
             else [])
          else [s!"{p_name} countered too early—recovery next turn."]
         else []) ++
        (if c_cmd == Command.COUNTER then
          if p_cmd == Command.ATTACK then
            [s!"{c_name} COUNTERED! {p_name} takes {g_str (counter_damage c_char)}."] ++
            (if c_char == Character.GREEN_PLASMA && p_char != Character.ORANGE_FIRE then
              [s!"{c_name}\x27s PLASMA adds +0.5: {p_name} takes 0.5 more."]
             else [])
          else [s!"{c_name} countered too early—recovery next turn."]
         else [])
      -- player attack messages (lines 248-269)
      let player_attack_negated :=
        c_cmd == Command.COUNTER && p_cmd == Command.ATTACK && p_char != Character.ORANGE_FIRE
      let cpu_attack_negated :=
        p_cmd == Command.COUNTER && c_cmd == Command.ATTACK && c_char != Character.ORANGE_FIRE
      let parts := parts ++
        (if p_cmd == Command.ATTACK && !player_attack_negated then
          if c_cmd == Command.BLOCK then
            (if c_char == Character.BROWN_STONE then
              [s!"{p_name} ATTACK hits STONE BLOCK: {c_name} takes 0."]
             else [s!"{p_name} ATTACK hits a BLOCK: {c_name} takes 0.5."]) ++
            (if c_char == Character.GREEN_PLASMA then
              [s!"{c_name}\x27s PLASMA shocks back: {p_name} takes 0.5."]
             else [])
          else [s!"{p_name} ATTACK lands: {c_name} takes 1."]
         else [])
      -- cpu attack messages (lines 272-291)
      let parts := parts ++
        (if c_cmd == Command.ATTACK && !cpu_attack_negated then
          if p_cmd == Command.BLOCK then
            (if p_char == Character.BROWN_STONE then
              [s!"{c_name} ATTACK hits STONE BLOCK: {p_name} takes 0."]
             else [s!"{c_name} ATTACK hits a BLOCK: {p_name} takes 0.5."]) ++
            (if p_char == Character.GREEN_PLASMA then
              [s!"{p_name}\x27s PLASMA shocks back: {c_name} takes 0.5."]
             else [])
          else [s!"{c_name} ATTACK lands: {p_name} takes 1."]
         else [])
      -- invincibility notices (lines 294-299)
      let parts := parts ++
        (if p_invincible && decide (0 < eff.p_damage_pre) then
          [s!"{p_name} takes no damage due to invincibility."]
         else []) ++
        (if c_invincible && decide (0 < eff.c_damage_pre) then
          [s!"{c_name} takes no damage due to invincibility."]
         else [])
      parts
  -- fallback (lines 317-330)
  let has_kw := parts.any fun s =>
    contains_sub s "takes" || contains_sub s "clash" || contains_sub s "COUNTERED" ||
    contains_sub s "hits" || contains_sub s "lands" || contains_sub s "BEAM" ||
    contains_sub s "PLASMA"
  let parts := if !has_kw && parts.isEmpty then ["No damage this turn."] else parts
  String.intercalate " " parts

/-- The result of one `resolve_turn` call: the two updated fighters plus the
returned `TurnOutcome`. -/
structure TurnRes where
  player : Fighter
  cpu : Fighter
  outcome : TurnOutcome
deriving DecidableEq

/-- The state-updating tail of `resolve_turn` (game_logic.py lines 117-332)
once the effective commands and invincibility flags are fixed: clear/set the
skip flags (117-121 and 210-212/226-228), reset/set the dealt-damage flags
(127-129 and the damage branches), apply damage (176-177/310-311), update
pressure (187-188/313-314), and return the `TurnOutcome` whose deltas are the
post-invincibility damages. -/
def assemble (turn_index : ℕ) (player cpu : Fighter) (p_cmd c_cmd : Command)
    (p_invincible c_invincible : Bool) : TurnRes :=
  let eff := turnEffects p_cmd c_cmd player.character cpu.character p_invincible c_invincible
  let text := turn_text player.name cpu.name p_cmd c_cmd player.character cpu.character
    p_invincible c_invincible
  let player1 : Fighter := { player with
    skip_next := eff.p_failed_counter,
    skip_reason := if eff.p_failed_counter then some "failed_counter" else none,
    dealt_damage_last_turn := eff.p_dealt }
  let cpu1 : Fighter := { cpu with
    skip_next := eff.c_failed_counter,
    skip_reason := if eff.c_failed_counter then some "failed_counter" else none,
    dealt_damage_last_turn := eff.c_dealt }
  let player2 := update_pressure (apply_damage player1 eff.p_damage) eff.p_damage eff.p_dealt
  let cpu2 := update_pressure (apply_damage cpu1 eff.c_damage) eff.c_damage eff.c_dealt
  ⟨player2, cpu2, ⟨turn_index, p_cmd, c_cmd, eff.p_damage, eff.c_damage, text⟩⟩

/-- `resolve_turn` (game_logic.py lines 78-332).  Lines 99-115 compute the
effective commands (forced skip substitution) and the Blue/Hi-Jump
invincibility flags; the rest is `assemble`. -/
def resolve_turn (turn_index : ℕ) (player cpu : Fighter)
    (planned_p planned_c : Command) : TurnRes :=
  assemble turn_index player cpu
    (if player.skip_next then Command.NONE else planned_p)
    (if cpu.skip_next then Command.NONE else planned_c)
    (player.skip_next &&
      (player.character == Character.BLUE_HIJUMP && player.skip_reason == some "failed_counter"))
    (cpu.skip_next &&
      (cpu.character == Character.BLUE_HIJUMP && cpu.skip_reason == some "failed_counter"))

/-- The per-turn termination checks of `run_battle` (game_logic.py lines
367-389), in source order: double KO, cpu KO, player KO, cpu pressure,
player pressure.  Returns `some (winner, reason)` when the loop breaks. -/
def check_termination (player cpu : Fighter) : Option (Option String × String) :=
  if player.hearts ≤ 0 ∧ cpu.hearts ≤ 0 then some (none, "Double KO!")
  else if cpu.hearts ≤ 0 then some (some player.name, "Opponent hearts reached 0.")
  else if player.hearts ≤ 0 then some (some cpu.name, "Player hearts reached 0.")
  else if 4 ≤ cpu.pressure then
    some (some player.name, "Opponent was knocked off the stage (pressure).")
  else if 4 ≤ player.pressure then
    some (some cpu.name, "Player was knocked off the stage (pressure).")
  else none

/-- The three log lines appended after each resolved turn (game_logic.py
lines 363-365). -/
def turn_log (out : TurnOutcome) (player cpu : Fighter) : List String :=
  let ph := float_str player.hearts
  let ch := float_str cpu.hearts
  let pv := out.p_cmd.value
  let cv := out.c_cmd.value
  let pp := toString player.pressure
  let cp := toString cpu.pressure
  [ s!"Turn {out.turn_index}: P[{pv}] vs CPU[{cv}] -> {out.text}",
    s!"    Hearts: {player.name}={ph} | {cpu.name}={ch}",
    s!"    Pressure: {player.name}={pp} | {cpu.name}={cp}" ]

/-- The state in which the turn loop of `run_battle` finishes. -/
structure LoopRes where
  player : Fighter
  cpu : Fighter
  log : List String
  winner : Option String
  reason : String
deriving DecidableEq

/-- The `for t in range(12)` loop of `run_battle` (game_logic.py lines
361-389), with fuel counting the remaining iterations and `t` the current
index.  Reading `player_plan[t]` / `cpu_plan[t]` past the end of a plan is
Python's `IndexError`, modelled as `none`. -/
def battleLoop (pp cp : List Command) :
    ℕ → ℕ → Fighter → Fighter → List String → Option String → String → Option LoopRes
  | 0, _t, player, cpu, log, winner, reason => some ⟨player, cpu, log, winner, reason⟩
  | n + 1, t, player, cpu, log, winner, reason =>
    match pp[t]? with
    | none => none
    | some planned_p =>
      match cp[t]? with
      | none => none
      | some planned_c =>
        let r := resolve_turn (t + 1) player cpu planned_p planned_c
        let log := log ++ turn_log r.outcome r.player r.cpu
        match check_termination r.player r.cpu with
        | some wr => some ⟨r.player, r.cpu, log, wr.1, wr.2⟩
        | none => battleLoop pp cp n (t + 1) r.player r.cpu log winner reason

/-- `run_battle` (game_logic.py lines 335-401).  The Python function seeds
the global `random` module when `seed` is not `None` and consumes at most one
draw (`random.random() < 0.5`) for sudden death; that draw is modelled by
`seedBit seed` when a seed was supplied and by `ambientBit` (the ambient
global generator state) otherwise. -/
def run_battle (player_name cpu_name : String) (player_plan cpu_plan : List Command)
    (player_character cpu_character : Character) (seed : Option ℕ)
    (seedBit : ℕ → Bool) (ambientBit : Bool) : Option BattleResult :=
  let player : Fighter := { name := player_name, character := player_character }
  let cpu : Fighter := { name := cpu_name, character := cpu_character }
  match battleLoop player_plan cpu_plan 12 0 player cpu [] none "Battle ended." with
  | none => none
  | some lr =>
    if lr.winner = none ∧ 0 < lr.player.hearts ∧ 0 < lr.cpu.hearts then
      let log := lr.log ++ ["Sudden Death! Each fighter has a 50% chance to land a KO strike."]
      if seed.elim ambientBit seedBit then
        some ⟨some lr.player.name, "Sudden Death KO strike landed by player.", log⟩
      else
        some ⟨some lr.cpu.name, "Sudden Death KO strike landed by CPU.", log⟩
    else
      some ⟨lr.winner, lr.reason, lr.log⟩

/-! ## Projection lemmas for the turn resolver -/

theorem update_pressure_pressure (f : Fighter) (took : ℤ) (dealt : Bool) :
    (update_pressure f took dealt).pressure =
      if 0 < took ∧ dealt = false then f.pressure + 1 else max 0 (f.pressure - 1) := by
  unfold update_pressure
  split
  · rfl
  · split <;> rfl

theorem update_pressure_same (f : Fighter) (took : ℤ) (dealt : Bool) :
    (update_pressure f took dealt).name = f.name ∧
    (update_pressure f took dealt).character = f.character ∧
    (update_pressure f took dealt).hearts = f.hearts ∧
    (update_pressure f took dealt).skip_next = f.skip_next ∧
    (update_pressure f took dealt).skip_reason = f.skip_reason ∧
    (update_pressure f took dealt).dealt_damage_last_turn = f.dealt_damage_last_turn := by
  unfold update_pressure
  split
  · exact ⟨rfl, rfl, rfl, rfl, rfl, rfl⟩
  · split <;> exact ⟨rfl, rfl, rfl, rfl, rfl, rfl⟩

/-- Effects record used by one `assemble` call. -/
def effOf (player cpu : Fighter) (p_cmd c_cmd : Command)
    (p_invincible c_invincible : Bool) : TurnEffects :=
  turnEffects p_cmd c_cmd player.character cpu.character p_invincible c_invincible

theorem assemble_outcome (t : ℕ) (player cpu : Fighter) (pc cc : Command) (pi_ ci : Bool) :
    (assemble t player cpu pc cc pi_ ci).outcome.turn_index = t ∧
    (assemble t player cpu pc cc pi_ ci).outcome.p_cmd = pc ∧
    (assemble t player cpu pc cc pi_ ci).outcome.c_cmd = cc ∧
    (assemble t player cpu pc cc pi_ ci).outcome.p_delta = (effOf player cpu pc cc pi_ ci).p_damage ∧
    (assemble t player cpu pc cc pi_ ci).outcome.c_delta = (effOf player cpu pc cc pi_ ci).c_damage := by
  exact ⟨rfl, rfl, rfl, rfl, rfl⟩

theorem assemble_player (t : ℕ) (player cpu : Fighter) (pc cc : Command) (pi_ ci : Bool) :
    (assemble t player cpu pc cc pi_ ci).player.name = player.name ∧
    (assemble t player cpu pc cc pi_ ci).player.character = player.character ∧
    (assemble t player cpu pc cc pi_ ci).player.hearts =
      max 0 (player.hearts - (effOf player cpu pc cc pi_ ci).p_damage) ∧
    (assemble t player cpu pc cc pi_ ci).player.skip_next =
      (effOf player cpu pc cc pi_ ci).p_failed_counter ∧
    (assemble t player cpu pc cc pi_ ci).player.skip_reason =
      (if (effOf player cpu pc cc pi_ ci).p_failed_counter then some "failed_counter" else none) ∧
    (assemble t player cpu pc cc pi_ ci).player.dealt_damage_last_turn =
      (effOf player cpu pc cc pi_ ci).p_dealt ∧
    (assemble t player cpu pc cc pi_ ci).player.pressure =
      (if 0 < (effOf player cpu pc cc pi_ ci).p_damage ∧ (effOf player cpu pc cc pi_ ci).p_dealt = false
       then player.pressure + 1 else max 0 (player.pressure - 1)) := by
  refine ⟨?_, ?_, ?_, ?_, ?_, ?_, ?_⟩ <;>
    simp [assemble, effOf, update_pressure_pressure, (update_pressure_same _ _ _).1,
      (update_pressure_same _ _ _).2.1, (update_pressure_same _ _ _).2.2.1,
      (update_pressure_same _ _ _).2.2.2.1, (update_pressure_same _ _ _).2.2.2.2.1,
      (update_pressure_same _ _ _).2.2.2.2.2, apply_damage]

theorem assemble_cpu (t : ℕ) (player cpu : Fighter) (pc cc : Command) (pi_ ci : Bool) :
    (assemble t player cpu pc cc pi_ ci).cpu.name = cpu.name ∧
    (assemble t player cpu pc cc pi_ ci).cpu.character = cpu.character ∧
    (assemble t player cpu pc cc pi_ ci).cpu.hearts =
      max 0 (cpu.hearts - (effOf player cpu pc cc pi_ ci).c_damage) ∧
    (assemble t player cpu pc cc pi_ ci).cpu.skip_next =
      (effOf player cpu pc cc pi_ ci).c_failed_counter ∧
    (assemble t player cpu pc cc pi_ ci).cpu.skip_reason =
      (if (effOf player cpu pc cc pi_ ci).c_failed_counter then some "failed_counter" else none) ∧
    (assemble t player cpu pc cc pi_ ci).cpu.dealt_damage_last_turn =
      (effOf player cpu pc cc pi_ ci).c_dealt ∧
    (assemble t player cpu pc cc pi_ ci).cpu.pressure =
      (if 0 < (effOf player cpu pc cc pi_ ci).c_damage ∧ (effOf player cpu pc cc pi_ ci).c_dealt = false
       then cpu.pressure + 1 else max 0 (cpu.pressure - 1)) := by
  refine ⟨?_, ?_, ?_, ?_, ?_, ?_, ?_⟩ <;>
    simp [assemble, effOf, update_pressure_pressure, (update_pressure_same _ _ _).1,
      (update_pressure_same _ _ _).2.1, (update_pressure_same _ _ _).2.2.1,
      (update_pressure_same _ _ _).2.2.2.1, (update_pressure_same _ _ _).2.2.2.2.1,
      (update_pressure_same _ _ _).2.2.2.2.2, apply_damage]

/-- When neither fighter is recovering, the effective commands are the
planned ones and no invincibility is granted. -/
theorem resolve_turn_no_skip (t : ℕ) (player cpu : Fighter) (pc cc : Command)
    (hp : player.skip_next = false) (hc : cpu.skip_next = false) :
    resolve_turn t player cpu pc cc = assemble t player cpu pc cc false false := by
  simp [resolve_turn, hp, hc]

/-! ## Finite-case facts about `turnEffects` (all damages in half-heart units) -/

theorem turnEffects_nonneg : ∀ (pc cc : Command) (a b : Character) (i j : Bool),
    0 ≤ (turnEffects pc cc a b i j).p_damage ∧ 0 ≤ (turnEffects pc cc a b i j).c_damage := by
  decide

theorem turnEffects_dealt_of_damage : ∀ (pc cc : Command) (a b : Character) (i j : Bool),
    (0 < (turnEffects pc cc a b i j).p_damage → (turnEffects pc cc a b i j).c_dealt = true) ∧
    (0 < (turnEffects pc cc a b i j).c_damage → (turnEffects pc cc a b i j).p_dealt = true) := by
  decide

theorem turnEffects_attack : ∀ (a b : Character),
    (turnEffects .ATTACK .COUNTER a b false false).c_damage =
      (if a = Character.ORANGE_FIRE then 2 else 0) ∧
    (turnEffects .ATTACK .BLOCK a b false false).c_damage =
      (if b = Character.BROWN_STONE then 0 else 1) ∧
    (turnEffects .ATTACK .BLOCK a b false false).p_damage =
      (if b = Character.GREEN_PLASMA then 1 else 0) ∧
    (turnEffects .ATTACK .IDLE a b false false).c_damage = 2 ∧
    (turnEffects .ATTACK .NONE a b false false).c_damage = 2 := by
  decide

theorem turnEffects_counter_success : ∀ (a b : Character),
    (turnEffects .COUNTER .ATTACK a b false false).c_damage =
      (if a = Character.WHITE_MIRROR then 4 else 2) +
        (if a = Character.GREEN_PLASMA ∧ b ≠ Character.ORANGE_FIRE then 1 else 0) ∧
    (turnEffects .COUNTER .ATTACK a b false false).p_failed_counter = false ∧
    (turnEffects .ATTACK .COUNTER a b false false).p_damage =
      (if b = Character.WHITE_MIRROR then 4 else 2) +
        (if b = Character.GREEN_PLASMA ∧ a ≠ Character.ORANGE_FIRE then 1 else 0) ∧
    (turnEffects .ATTACK .COUNTER a b false false).c_failed_counter = false := by
  decide

theorem turnEffects_counter_failure : ∀ (a b : Character),
    ((turnEffects .COUNTER .BLOCK a b false false).p_damage = 0 ∧
     (turnEffects .COUNTER .BLOCK a b false false).c_damage = 0 ∧
     (turnEffects .COUNTER .BLOCK a b false false).p_failed_counter = true) ∧
    ((turnEffects .COUNTER .IDLE a b false false).p_damage = 0 ∧
     (turnEffects .COUNTER .IDLE a b false false).c_damage = 0 ∧
     (turnEffects .COUNTER .IDLE a b false false).p_failed_counter = true) ∧
    ((turnEffects .COUNTER .COUNTER a b false false).p_damage = 0 ∧
     (turnEffects .COUNTER .COUNTER a b false false).c_damage = 0 ∧
     (turnEffects .COUNTER .COUNTER a b false false).p_failed_counter = true ∧
     (turnEffects .COUNTER .COUNTER a b false false).c_failed_counter = true) ∧
    ((turnEffects .COUNTER .NONE a b false false).p_damage = 0 ∧
     (turnEffects .COUNTER .NONE a b false false).c_damage = 0 ∧
     (turnEffects .COUNTER .NONE a b false false).p_failed_counter = true) ∧
    ((turnEffects .BLOCK .COUNTER a b false false).p_damage = 0 ∧
     (turnEffects .BLOCK .COUNTER a b false false).c_damage = 0 ∧
     (turnEffects .BLOCK .COUNTER a b false false).c_failed_counter = true) ∧
    ((turnEffects .IDLE .COUNTER a b false false).p_damage = 0 ∧
     (turnEffects .IDLE .COUNTER a b false false).c_damage = 0 ∧
     (turnEffects .IDLE .COUNTER a b false false).c_failed_counter = true) ∧
    ((turnEffects .NONE .COUNTER a b false false).p_damage = 0 ∧
     (turnEffects .NONE .COUNTER a b false false).c_damage = 0 ∧
     (turnEffects .NONE .COUNTER a b false false).c_failed_counter = true) := by
  decide

theorem turnEffects_forced_skip : ∀ (cc : Command) (a b : Character) (j : Bool),
    ((turnEffects .NONE cc a b true j).p_damage = 0 ∧
     (turnEffects .NONE cc a b true j).p_failed_counter = false) ∧
    ((turnEffects .NONE cc a b false j).p_damage = (if cc = Command.ATTACK then 2 else 0) ∧
     (turnEffects .NONE cc a b false j).p_failed_counter = false) := by
  decide

theorem turnEffects_forced_skip_cpu : ∀ (pc : Command) (a b : Character) (i : Bool),
    ((turnEffects pc .NONE a b i true).c_damage = 0 ∧
     (turnEffects pc .NONE a b i true).c_failed_counter = false) ∧
    ((turnEffects pc .NONE a b i false).c_damage = (if pc = Command.ATTACK then 2 else 0) ∧
     (turnEffects pc .NONE a b i false).c_failed_counter = false) := by
  decide

theorem turnEffects_attack_cpu : ∀ (a b : Character),
    (turnEffects .COUNTER .ATTACK a b false false).p_damage =
      (if b = Character.ORANGE_FIRE then 2 else 0) ∧
    (turnEffects .BLOCK .ATTACK a b false false).p_damage =
      (if a = Character.BROWN_STONE then 0 else 1) ∧
    (turnEffects .BLOCK .ATTACK a b false false).c_damage =
      (if a = Character.GREEN_PLASMA then 1 else 0) ∧
    (turnEffects .IDLE .ATTACK a b false false).p_damage = 2 ∧
    (turnEffects .NONE .ATTACK a b false false).p_damage = 2 := by
  decide

theorem turnEffects_clash : ∀ (a b : Character),
    (turnEffects .ATTACK .ATTACK a b false false).p_damage =
      (if b = Character.PURPLE_NINJA then 1 else 0) ∧
    (turnEffects .ATTACK .ATTACK a b false false).c_damage =
      (if a = Character.PURPLE_NINJA then 1 else 0) ∧
    (turnEffects .ATTACK .ATTACK a b false false).p_failed_counter = false ∧
    (turnEffects .ATTACK .ATTACK a b false false).c_failed_counter = false ∧
    (turnEffects .ATTACK .ATTACK a b false false).p_dealt = (a == Character.PURPLE_NINJA) ∧
    (turnEffects .ATTACK .ATTACK a b false false).c_dealt = (b == Character.PURPLE_NINJA) := by
  decide

theorem turnEffects_clash_invincible : ∀ (a b : Character) (i : Bool),
    (turnEffects .ATTACK .ATTACK a b true i).p_damage = 0 ∧
    (turnEffects .ATTACK .ATTACK a b i true).c_damage = 0 := by
  decide

/-! ## Per-turn facts lifted to `resolve_turn` -/

theorem resolve_turn_names (t : ℕ) (player cpu : Fighter) (pc cc : Command) :
    (resolve_turn t player cpu pc cc).player.name = player.name ∧
    (resolve_turn t player cpu pc cc).cpu.name = cpu.name := by
  exact ⟨(assemble_player t player cpu _ _ _ _).1, (assemble_cpu t player cpu _ _ _ _).1⟩

theorem max0_sub_bounds {h d : ℤ} (hh : 0 ≤ h) (hd : 0 ≤ d) :
    0 ≤ max 0 (h - d) ∧ max 0 (h - d) ≤ h := by
  refine ⟨le_max_left 0 _, ?_⟩
  rcases le_total (h - d) 0 with hle | hle
  · rw [max_eq_left hle]; exact hh
  · rw [max_eq_right hle]; omega

theorem resolve_turn_hearts_bounds (t : ℕ) (player cpu : Fighter) (pc cc : Command)
    (hp : 0 ≤ player.hearts) (hc : 0 ≤ cpu.hearts) :
    (0 ≤ (resolve_turn t player cpu pc cc).player.hearts ∧
      (resolve_turn t player cpu pc cc).player.hearts ≤ player.hearts) ∧
    (0 ≤ (resolve_turn t player cpu pc cc).cpu.hearts ∧
      (resolve_turn t player cpu pc cc).cpu.hearts ≤ cpu.hearts) := by
  have hP := (assemble_player t player cpu
    (if player.skip_next then Command.NONE else pc)
    (if cpu.skip_next then Command.NONE else cc)
    (player.skip_next &&
      (player.character == Character.BLUE_HIJUMP && player.skip_reason == some "failed_counter"))
    (cpu.skip_next &&
      (cpu.character == Character.BLUE_HIJUMP && cpu.skip_reason == some "failed_counter"))).2.2.1
  have hC := (assemble_cpu t player cpu
    (if player.skip_next then Command.NONE else pc)
    (if cpu.skip_next then Command.NONE else cc)
    (player.skip_next &&
      (player.character == Character.BLUE_HIJUMP && player.skip_reason == some "failed_counter"))
    (cpu.skip_next &&
      (cpu.character == Character.BLUE_HIJUMP && cpu.skip_reason == some "failed_counter"))).2.2.1
  have hd := turnEffects_nonneg
    (if player.skip_next then Command.NONE else pc)
    (if cpu.skip_next then Command.NONE else cc)
    player.character cpu.character
    (player.skip_next &&
      (player.character == Character.BLUE_HIJUMP && player.skip_reason == some "failed_counter"))
    (cpu.skip_next &&
      (cpu.character == Character.BLUE_HIJUMP && cpu.skip_reason == some "failed_counter"))
  rw [show resolve_turn t player cpu pc cc = assemble t player cpu
    (if player.skip_next then Command.NONE else pc)
    (if cpu.skip_next then Command.NONE else cc)
    (player.skip_next &&
      (player.character == Character.BLUE_HIJUMP && player.skip_reason == some "failed_counter"))
    (cpu.skip_next &&
      (cpu.character == Character.BLUE_HIJUMP && cpu.skip_reason == some "failed_counter"))
    from rfl]
  rw [hP, hC]
  exact ⟨max0_sub_bounds hp hd.1, max0_sub_bounds hc hd.2⟩

/-! ## Loop-level lemmas for `battleLoop` -/

theorem battleLoop_isSome (pp cp : List Command) :
    ∀ (n t : ℕ) (player cpu : Fighter) (log : List String) (w : Option String) (r : String),
      t + n ≤ pp.length → t + n ≤ cp.length →
      (battleLoop pp cp n t player cpu log w r).isSome = true := by
  intro n
  induction n with
  | zero => intro t player cpu log w r _ _; simp [battleLoop]
  | succ n ih =>
    intro t player cpu log w r h1 h2
    have hpt : t < pp.length := by omega
    have hct : t < cp.length := by omega
    rw [battleLoop, List.getElem?_eq_getElem hpt, List.getElem?_eq_getElem hct]
    cases hck : check_termination
        (resolve_turn (t + 1) player cpu pp[t] cp[t]).player
        (resolve_turn (t + 1) player cpu pp[t] cp[t]).cpu with
    | none =>
      simp only [hck]
      exact ih (t + 1) _ _ _ w r (by omega) (by omega)
    | some wr => simp [hck]

theorem battleLoop_take12 (pp cp : List Command) :
    ∀ (n t : ℕ) (player cpu : Fighter) (log : List String) (w : Option String) (r : String),
      t + n ≤ 12 →
      battleLoop pp cp n t player cpu log w r =
        battleLoop (pp.take 12) (cp.take 12) n t player cpu log w r := by
  intro n
  induction n with
  | zero => intro t player cpu log w r _; rfl
  | succ n ih =>
    intro t player cpu log w r h
    have ht : t < 12 := by omega
    rw [battleLoop, battleLoop, List.getElem?_take, if_pos ht, List.getElem?_take, if_pos ht]
    cases hpt : pp[t]? with
    | none => rfl
    | some a =>
      cases hcc : cp[t]? with
      | none => rfl
      | some b =>
        cases hck : check_termination
            (resolve_turn (t + 1) player cpu a b).player
            (resolve_turn (t + 1) player cpu a b).cpu with
        | none => simp only [hck]; exact ih (t + 1) _ _ _ w r (by omega)
        | some wr => simp [hck]

theorem battleLoop_hearts (pp cp : List Command) :
    ∀ (n t : ℕ) (player cpu : Fighter) (log : List String) (w : Option String) (r : String),
      0 ≤ player.hearts → 0 ≤ cpu.hearts →
      (battleLoop pp cp n t player cpu log w r).elim True (fun lr =>
        0 ≤ lr.player.hearts ∧ lr.player.hearts ≤ player.hearts ∧
        0 ≤ lr.cpu.hearts ∧ lr.cpu.hearts ≤ cpu.hearts) := by
  intro n
  induction n with
  | zero =>
    intro t player cpu log w r hp hc
    exact ⟨hp, le_refl _, hc, le_refl _⟩
  | succ n ih =>
    intro t player cpu log w r hp hc
    rw [battleLoop]
    cases hpt : pp[t]? with
    | none => simp
    | some a =>
      cases hcc : cp[t]? with
      | none => simp
      | some b =>
        have hb := resolve_turn_hearts_bounds (t + 1) player cpu a b hp hc
        cases hck : check_termination
            (resolve_turn (t + 1) player cpu a b).player
            (resolve_turn (t + 1) player cpu a b).cpu with
        | some wr =>
          simp only [hck, Option.elim]
          exact ⟨hb.1.1, hb.1.2, hb.2.1, hb.2.2⟩
        | none =>
          simp only [hck]
          have H := ih (t + 1) (resolve_turn (t + 1) player cpu a b).player
            (resolve_turn (t + 1) player cpu a b).cpu
            (log ++ turn_log (resolve_turn (t + 1) player cpu a b).outcome
              (resolve_turn (t + 1) player cpu a b).player
              (resolve_turn (t + 1) player cpu a b).cpu) w r hb.1.1 hb.2.1
          cases hres : battleLoop pp cp n (t + 1)
              (resolve_turn (t + 1) player cpu a b).player
              (resolve_turn (t + 1) player cpu a b).cpu
              (log ++ turn_log (resolve_turn (t + 1) player cpu a b).outcome
                (resolve_turn (t + 1) player cpu a b).player
                (resolve_turn (t + 1) player cpu a b).cpu) w r with
          | none => simp [hres]
          | some lr =>
            rw [hres] at H
            simp only [Option.elim] at H ⊢
            exact ⟨H.1, H.2.1.trans hb.1.2, H.2.2.1, H.2.2.2.trans hb.2.2⟩

/-- Characterization of how the turn loop can finish, starting from a state
in which no termination condition holds yet. -/
theorem battleLoop_char (pp cp : List Command) :
    ∀ (n t : ℕ) (player cpu : Fighter) (log : List String),
      0 < player.hearts → 0 < cpu.hearts → player.pressure < 4 → cpu.pressure < 4 →
      t + n ≤ pp.length → t + n ≤ cp.length →
      ∃ lr, battleLoop pp cp n t player cpu log none "Battle ended." = some lr ∧
        lr.player.name = player.name ∧ lr.cpu.name = cpu.name ∧
        ((lr.winner = none ∧ lr.reason = "Battle ended." ∧
            0 < lr.player.hearts ∧ 0 < lr.cpu.hearts) ∨
         (lr.winner = none ∧ lr.reason = "Double KO!" ∧
            lr.player.hearts ≤ 0 ∧ lr.cpu.hearts ≤ 0) ∨
         (lr.winner = some player.name ∧
            (lr.reason = "Opponent hearts reached 0." ∨
             lr.reason = "Opponent was knocked off the stage (pressure).")) ∨
         (lr.winner = some cpu.name ∧
            (lr.reason = "Player hearts reached 0." ∨
             lr.reason = "Player was knocked off the stage (pressure)."))) := by
  intro n
  induction n with
  | zero =>
    intro t player cpu log hp hc hpp hcp h1 h2
    exact ⟨⟨player, cpu, log, none, "Battle ended."⟩, rfl, rfl, rfl,
      Or.inl ⟨rfl, rfl, hp, hc⟩⟩
  | succ n ih =>
    intro t player cpu log hp hc hpp hcp h1 h2
    have hpt : t < pp.length := by omega
    have hct : t < cp.length := by omega
    rw [battleLoop, List.getElem?_eq_getElem hpt, List.getElem?_eq_getElem hct]
    have hnm := resolve_turn_names (t + 1) player cpu pp[t] cp[t]
    cases hck : check_termination
        (resolve_turn (t + 1) player cpu pp[t] cp[t]).player
        (resolve_turn (t + 1) player cpu pp[t] cp[t]).cpu with
    | some wr =>
      simp only [hck]
      refine ⟨_, rfl, hnm.1, hnm.2, ?_⟩
      unfold check_termination at hck
      split_ifs at hck with g1 g2 g3 g4 g5
      · obtain rfl : wr = (none, "Double KO!") := (Option.some.inj hck).symm
        exact Or.inr (Or.inl ⟨rfl, rfl, g1.1, g1.2⟩)
      · obtain rfl : wr = (some (resolve_turn (t + 1) player cpu pp[t] cp[t]).player.name,
          "Opponent hearts reached 0.") := (Option.some.inj hck).symm
        exact Or.inr (Or.inr (Or.inl ⟨by rw [hnm.1], Or.inl rfl⟩))
      · obtain rfl : wr = (some (resolve_turn (t + 1) player cpu pp[t] cp[t]).cpu.name,
          "Player hearts reached 0.") := (Option.some.inj hck).symm
        exact Or.inr (Or.inr (Or.inr ⟨by rw [hnm.2], Or.inl rfl⟩))
      · obtain rfl : wr = (some (resolve_turn (t + 1) player cpu pp[t] cp[t]).player.name,
          "Opponent was knocked off the stage (pressure).") := (Option.some.inj hck).symm
        exact Or.inr (Or.inr (Or.inl ⟨by rw [hnm.1], Or.inr rfl⟩))
      · obtain rfl : wr = (some (resolve_turn (t + 1) player cpu pp[t] cp[t]).cpu.name,
          "Player was knocked off the stage (pressure).") := (Option.some.inj hck).symm
        exact Or.inr (Or.inr (Or.inr ⟨by rw [hnm.2], Or.inr rfl⟩))
    | none =>
      simp only [hck]
      unfold check_termination at hck
      split_ifs at hck with g1 g2 g3 g4 g5
      have hp2 : 0 < (resolve_turn (t + 1) player cpu pp[t] cp[t]).player.hearts := by omega
      have hc2 : 0 < (resolve_turn (t + 1) player cpu pp[t] cp[t]).cpu.hearts := by omega
      have hpp2 : (resolve_turn (t + 1) player cpu pp[t] cp[t]).player.pressure < 4 := by omega
      have hcp2 : (resolve_turn (t + 1) player cpu pp[t] cp[t]).cpu.pressure < 4 := by omega
      obtain ⟨lr, hlr, hn1, hn2, hdisj⟩ := ih (t + 1)
        (resolve_turn (t + 1) player cpu pp[t] cp[t]).player
        (resolve_turn (t + 1) player cpu pp[t] cp[t]).cpu
        (log ++ turn_log (resolve_turn (t + 1) player cpu pp[t] cp[t]).outcome
          (resolve_turn (t + 1) player cpu pp[t] cp[t]).player
          (resolve_turn (t + 1) player cpu pp[t] cp[t]).cpu)
        hp2 hc2 hpp2 hcp2 (by omega) (by omega)
      refine ⟨lr, hlr, by rw [hn1, hnm.1], by rw [hn2, hnm.2], ?_⟩
      rcases hdisj with h | h | h | h
      · exact Or.inl h
      · exact Or.inr (Or.inl h)
      · exact Or.inr (Or.inr (Or.inl ⟨by rw [h.1, hnm.1], h.2⟩))
      · exact Or.inr (Or.inr (Or.inr ⟨by rw [h.1, hnm.2], h.2⟩))

/-! ## Claim theorems -/

/-- C2: for a turn in which either side's effective command is Attack (no
pending skip on either side), the attack is negated exactly when the
opponent counters and the attacker is not Fire (vs Counter the defender
takes 1 heart (= 2 half-hearts) iff the attacker is Fire, else 0); a
non-negated attack vs Block deals 0.5 hearts (= 1), or 0 against a Stone
defender, and a Plasma defender deals 0.5 (= 1) back to the attacker; a
non-negated attack vs any non-Block command (Idle, ForcedSkip) deals a full
1 heart (= 2).  Stated for the player as attacker (first five conjuncts,
game_logic.py lines 248-269) and for the cpu as attacker (last five
conjuncts, lines 272-291). -/
theorem C2_attack_resolution (t : ℕ) (player cpu : Fighter)
    (hp : player.skip_next = false) (hc : cpu.skip_next = false) :
    ((resolve_turn t player cpu .ATTACK .COUNTER).outcome.c_delta =
      if player.character = Character.ORANGE_FIRE then 2 else 0) ∧
    ((resolve_turn t player cpu .ATTACK .BLOCK).outcome.c_delta =
      if cpu.character = Character.BROWN_STONE then 0 else 1) ∧
    ((resolve_turn t player cpu .ATTACK .BLOCK).outcome.p_delta =
      if cpu.character = Character.GREEN_PLASMA then 1 else 0) ∧
    ((resolve_turn t player cpu .ATTACK .IDLE).outcome.c_delta = 2) ∧
    ((resolve_turn t player cpu .ATTACK .NONE).outcome.c_delta = 2) ∧
    ((resolve_turn t player cpu .COUNTER .ATTACK).outcome.p_delta =
      if cpu.character = Character.ORANGE_FIRE then 2 else 0) ∧
    ((resolve_turn t player cpu .BLOCK .ATTACK).outcome.p_delta =
      if player.character = Character.BROWN_STONE then 0 else 1) ∧
    ((resolve_turn t player cpu .BLOCK .ATTACK).outcome.c_delta =
      if player.character = Character.GREEN_PLASMA then 1 else 0) ∧
    ((resolve_turn t player cpu .IDLE .ATTACK).outcome.p_delta = 2) ∧
    ((resolve_turn t player cpu .NONE .ATTACK).outcome.p_delta = 2) := by
  refine ⟨?_, ?_, ?_, ?_, ?_, ?_, ?_, ?_, ?_, ?_⟩
  · rw [resolve_turn_no_skip t player cpu .ATTACK .COUNTER hp hc,
      (assemble_outcome t player cpu .ATTACK .COUNTER false false).2.2.2.2]
    exact (turnEffects_attack player.character cpu.character).1
  · rw [resolve_turn_no_skip t player cpu .ATTACK .BLOCK hp hc,
      (assemble_outcome t player cpu .ATTACK .BLOCK false false).2.2.2.2]
    exact (turnEffects_attack player.character cpu.character).2.1
  · rw [resolve_turn_no_skip t player cpu .ATTACK .BLOCK hp hc,
      (assemble_outcome t player cpu .ATTACK .BLOCK false false).2.2.2.1]
    exact (turnEffects_attack player.character cpu.character).2.2.1
  · rw [resolve_turn_no_skip t player cpu .ATTACK .IDLE hp hc,
      (assemble_outcome t player cpu .ATTACK .IDLE false false).2.2.2.2]
    exact (turnEffects_attack player.character cpu.character).2.2.2.1
  · rw [resolve_turn_no_skip t player cpu .ATTACK .NONE hp hc,
      (assemble_outcome t player cpu .ATTACK .NONE false false).2.2.2.2]
    exact (turnEffects_attack player.character cpu.character).2.2.2.2
  · rw [resolve_turn_no_skip t player cpu .COUNTER .ATTACK hp hc,
      (assemble_outcome t player cpu .COUNTER .ATTACK false false).2.2.2.1]
    exact (turnEffects_attack_cpu player.character cpu.character).1
  · rw [resolve_turn_no_skip t player cpu .BLOCK .ATTACK hp hc,
      (assemble_outcome t player cpu .BLOCK .ATTACK false false).2.2.2.1]
    exact (turnEffects_attack_cpu player.character cpu.character).2.1
  · rw [resolve_turn_no_skip t player cpu .BLOCK .ATTACK hp hc,
      (assemble_outcome t player cpu .BLOCK .ATTACK false false).2.2.2.2]
    exact (turnEffects_attack_cpu player.character cpu.character).2.2.1
  · rw [resolve_turn_no_skip t player cpu .IDLE .ATTACK hp hc,
      (assemble_outcome t player cpu .IDLE .ATTACK false false).2.2.2.1]
    exact (turnEffects_attack_cpu player.character cpu.character).2.2.2.1
  · rw [resolve_turn_no_skip t player cpu .NONE .ATTACK hp hc,
      (assemble_outcome t player cpu .NONE .ATTACK false false).2.2.2.1]
    exact (turnEffects_attack_cpu player.character cpu.character).2.2.2.2

theorem C2_witness :
    ({ name := "P" } : Fighter).skip_next = false ∧
    ({ name := "C" } : Fighter).skip_next = false ∧
    (resolve_turn 1 { name := "P" } { name := "C" } .ATTACK .IDLE).outcome.c_delta = 2 :=
  ⟨rfl, rfl, (C2_attack_resolution 1 { name := "P" } { name := "C" } rfl rfl).2.2.2.1⟩

/-- C3: for a turn with no pending skip on either side, a Counter against an
Attack succeeds: the attacker takes 1 heart (= 2 half-hearts), 2 hearts (= 4)
from a Mirror counterer, plus 0.5 (= 1) more when the counterer is Plasma and
the attacker is not Fire, and the counterer's `skip_next` stays false; a
Counter against any non-Attack command fails: the countering side's
`skip_next` is set with reason "failed_counter" and the failed counter deals
no damage to either side.  Both sides are treated independently. -/
theorem C3_counter_resolution (t : ℕ) (player cpu : Fighter)
    (hp : player.skip_next = false) (hc : cpu.skip_next = false) :
    ((resolve_turn t player cpu .COUNTER .ATTACK).outcome.c_delta =
      (if player.character = Character.WHITE_MIRROR then 4 else 2) +
        (if player.character = Character.GREEN_PLASMA ∧
            cpu.character ≠ Character.ORANGE_FIRE then 1 else 0)) ∧
    ((resolve_turn t player cpu .COUNTER .ATTACK).player.skip_next = false) ∧
    ((resolve_turn t player cpu .COUNTER .BLOCK).player.skip_next = true ∧
     (resolve_turn t player cpu .COUNTER .BLOCK).player.skip_reason = some "failed_counter" ∧
     (resolve_turn t player cpu .COUNTER .BLOCK).outcome.p_delta = 0 ∧
     (resolve_turn t player cpu .COUNTER .BLOCK).outcome.c_delta = 0) ∧
    ((resolve_turn t player cpu .COUNTER .IDLE).player.skip_next = true ∧
     (resolve_turn t player cpu .COUNTER .IDLE).player.skip_reason = some "failed_counter" ∧
     (resolve_turn t player cpu .COUNTER .IDLE).outcome.p_delta = 0 ∧
     (resolve_turn t player cpu .COUNTER .IDLE).outcome.c_delta = 0) ∧
    ((resolve_turn t player cpu .COUNTER .COUNTER).player.skip_next = true ∧
     (resolve_turn t player cpu .COUNTER .COUNTER).cpu.skip_next = true ∧
     (resolve_turn t player cpu .COUNTER .COUNTER).outcome.p_delta = 0 ∧
     (resolve_turn t player cpu .COUNTER .COUNTER).outcome.c_delta = 0) ∧
    ((resolve_turn t player cpu .COUNTER .NONE).player.skip_next = true ∧
     (resolve_turn t player cpu .COUNTER .NONE).player.skip_reason = some "failed_counter" ∧
     (resolve_turn t player cpu .COUNTER .NONE).outcome.p_delta = 0 ∧
     (resolve_turn t player cpu .COUNTER .NONE).outcome.c_delta = 0) ∧
    ((resolve_turn t player cpu .ATTACK .COUNTER).outcome.p_delta =
      (if cpu.character = Character.WHITE_MIRROR then 4 else 2) +
        (if cpu.character = Character.GREEN_PLASMA ∧
            player.character ≠ Character.ORANGE_FIRE then 1 else 0)) ∧
    ((resolve_turn t player cpu .ATTACK .COUNTER).cpu.skip_next = false) ∧
    ((resolve_turn t player cpu .BLOCK .COUNTER).cpu.skip_next = true ∧
     (resolve_turn t player cpu .BLOCK .COUNTER).cpu.skip_reason = some "failed_counter" ∧
     (resolve_turn t player cpu .BLOCK .COUNTER).outcome.p_delta = 0 ∧
     (resolve_turn t player cpu .BLOCK .COUNTER).outcome.c_delta = 0) ∧
    ((resolve_turn t player cpu .IDLE .COUNTER).cpu.skip_next = true ∧
     (resolve_turn t player cpu .IDLE .COUNTER).cpu.skip_reason = some "failed_counter" ∧
     (resolve_turn t player cpu .IDLE .COUNTER).outcome.p_delta = 0 ∧
     (resolve_turn t player cpu .IDLE .COUNTER).outcome.c_delta = 0) := by
  have hF := turnEffects_counter_failure player.character cpu.character
  have hS := turnEffects_counter_success player.character cpu.character
  refine ⟨?_, ?_, ⟨?_, ?_, ?_, ?_⟩, ⟨?_, ?_, ?_, ?_⟩, ⟨?_, ?_, ?_, ?_⟩,
    ⟨?_, ?_, ?_, ?_⟩, ?_, ?_, ⟨?_, ?_, ?_, ?_⟩, ⟨?_, ?_, ?_, ?_⟩⟩
  · rw [resolve_turn_no_skip t player cpu .COUNTER .ATTACK hp hc,
      (assemble_outcome t player cpu .COUNTER .ATTACK false false).2.2.2.2]
    exact hS.1
  · rw [resolve_turn_no_skip t player cpu .COUNTER .ATTACK hp hc,
      (assemble_player t player cpu .COUNTER .ATTACK false false).2.2.2.1]
    exact hS.2.1
  · rw [resolve_turn_no_skip t player cpu .COUNTER .BLOCK hp hc,
      (assemble_player t player cpu .COUNTER .BLOCK false false).2.2.2.1]
    exact hF.1.2.2
  · rw [resolve_turn_no_skip t player cpu .COUNTER .BLOCK hp hc,
      (assemble_player t player cpu .COUNTER .BLOCK false false).2.2.2.2.1,
      show (effOf player cpu .COUNTER .BLOCK false false).p_failed_counter = true from hF.1.2.2]
    rfl
  · rw [resolve_turn_no_skip t player cpu .COUNTER .BLOCK hp hc,
      (assemble_outcome t player cpu .COUNTER .BLOCK false false).2.2.2.1]
    exact hF.1.1
  · rw [resolve_turn_no_skip t player cpu .COUNTER .BLOCK hp hc,
      (assemble_outcome t player cpu .COUNTER .BLOCK false false).2.2.2.2]
    exact hF.1.2.1
  · rw [resolve_turn_no_skip t player cpu .COUNTER .IDLE hp hc,
      (assemble_player t player cpu .COUNTER .IDLE false false).2.2.2.1]
    exact hF.2.1.2.2
  · rw [resolve_turn_no_skip t player cpu .COUNTER .IDLE hp hc,
      (assemble_player t player cpu .COUNTER .IDLE false false).2.2.2.2.1,
      show (effOf player cpu .COUNTER .IDLE false false).p_failed_counter = true from hF.2.1.2.2]
    rfl
  · rw [resolve_turn_no_skip t player cpu .COUNTER .IDLE hp hc,
      (assemble_outcome t player cpu .COUNTER .IDLE false false).2.2.2.1]
    exact hF.2.1.1
  · rw [resolve_turn_no_skip t player cpu .COUNTER .IDLE hp hc,
      (assemble_outcome t player cpu .COUNTER .IDLE false false).2.2.2.2]
    exact hF.2.1.2.1
  · rw [resolve_turn_no_skip t player cpu .COUNTER .COUNTER hp hc,
      (assemble_player t player cpu .COUNTER .COUNTER false false).2.2.2.1]
    exact hF.2.2.1.2.2.1
  · rw [resolve_turn_no_skip t player cpu .COUNTER .COUNTER hp hc,
      (assemble_cpu t player cpu .COUNTER .COUNTER false false).2.2.2.1]
    exact hF.2.2.1.2.2.2
  · rw [resolve_turn_no_skip t player cpu .COUNTER .COUNTER hp hc,
      (assemble_outcome t player cpu .COUNTER .COUNTER false false).2.2.2.1]
    exact hF.2.2.1.1
  · rw [resolve_turn_no_skip t player cpu .COUNTER .COUNTER hp hc,
      (assemble_outcome t player cpu .COUNTER .COUNTER false false).2.2.2.2]
    exact hF.2.2.1.2.1
  · rw [resolve_turn_no_skip t player cpu .COUNTER .NONE hp hc,
      (assemble_player t player cpu .COUNTER .NONE false false).2.2.2.1]
    exact hF.2.2.2.1.2.2
  · rw [resolve_turn_no_skip t player cpu .COUNTER .NONE hp hc,
      (assemble_player t player cpu .COUNTER .NONE false false).2.2.2.2.1,
      show (effOf player cpu .COUNTER .NONE false false).p_failed_counter = true from hF.2.2.2.1.2.2]
    rfl
  · rw [resolve_turn_no_skip t player cpu .COUNTER .NONE hp hc,
      (assemble_outcome t player cpu .COUNTER .NONE false false).2.2.2.1]
    exact hF.2.2.2.1.1
  · rw [resolve_turn_no_skip t player cpu .COUNTER .NONE hp hc,
      (assemble_outcome t player cpu .COUNTER .NONE false false).2.2.2.2]
    exact hF.2.2.2.1.2.1
  · rw [resolve_turn_no_skip t player cpu .ATTACK .COUNTER hp hc,
      (assemble_outcome t player cpu .ATTACK .COUNTER false false).2.2.2.1]
    exact hS.2.2.1
  · rw [resolve_turn_no_skip t player cpu .ATTACK .COUNTER hp hc,
      (assemble_cpu t player cpu .ATTACK .COUNTER false false).2.2.2.1]
    exact hS.2.2.2
  · rw [resolve_turn_no_skip t player cpu .BLOCK .COUNTER hp hc,
      (assemble_cpu t player cpu .BLOCK .COUNTER false false).2.2.2.1]
    exact hF.2.2.2.2.1.2.2
  · rw [resolve_turn_no_skip t player cpu .BLOCK .COUNTER hp hc,
      (assemble_cpu t player cpu .BLOCK .COUNTER false false).2.2.2.2.1,
      show (effOf player cpu .BLOCK .COUNTER false false).c_failed_counter = true from
        hF.2.2.2.2.1.2.2]
    rfl
  · rw [resolve_turn_no_skip t player cpu .BLOCK .COUNTER hp hc,
      (assemble_outcome t player cpu .BLOCK .COUNTER false false).2.2.2.1]
    exact hF.2.2.2.2.1.1
  · rw [resolve_turn_no_skip t player cpu .BLOCK .COUNTER hp hc,
      (assemble_outcome t player cpu .BLOCK .COUNTER false false).2.2.2.2]
    exact hF.2.2.2.2.1.2.1
  · rw [resolve_turn_no_skip t player cpu .IDLE .COUNTER hp hc,
      (assemble_cpu t player cpu .IDLE .COUNTER false false).2.2.2.1]
    exact hF.2.2.2.2.2.1.2.2
  · rw [resolve_turn_no_skip t player cpu .IDLE .COUNTER hp hc,
      (assemble_cpu t player cpu .IDLE .COUNTER false false).2.2.2.2.1,
      show (effOf player cpu .IDLE .COUNTER false false).c_failed_counter = true from
        hF.2.2.2.2.2.1.2.2]
    rfl
  · rw [resolve_turn_no_skip t player cpu .IDLE .COUNTER hp hc,
      (assemble_outcome t player cpu .IDLE .COUNTER false false).2.2.2.1]
    exact hF.2.2.2.2.2.1.1
  · rw [resolve_turn_no_skip t player cpu .IDLE .COUNTER hp hc,
      (assemble_outcome t player cpu .IDLE .COUNTER false false).2.2.2.2]
    exact hF.2.2.2.2.2.1.2.1

theorem C3_witness :
    ({ name := "P" } : Fighter).skip_next = false ∧
    ({ name := "C" } : Fighter).skip_next = false ∧
    (resolve_turn 1 { name := "P" } { name := "C" } .COUNTER .ATTACK).outcome.c_delta = 2 := by
  refine ⟨rfl, rfl, ?_⟩
  have h := (C3_counter_resolution 1 { name := "P" } { name := "C" } rfl rfl).1
  simpa using h

/-- Effective command substitution of `resolve_turn` (game_logic.py lines
103-115): a pending skip forces `NONE`. -/
def eff_cmd (f : Fighter) (planned : Command) : Command :=
  if f.skip_next then Command.NONE else planned

/-- Invincibility flag of `resolve_turn` (game_logic.py lines 103-112). -/
def inv_flag (f : Fighter) : Bool :=
  f.skip_next && (f.character == Character.BLUE_HIJUMP && f.skip_reason == some "failed_counter")

theorem resolve_turn_eq (t : ℕ) (player cpu : Fighter) (pc cc : Command) :
    resolve_turn t player cpu pc cc =
      assemble t player cpu (eff_cmd player pc) (eff_cmd cpu cc)
        (inv_flag player) (inv_flag cpu) := rfl

/-- C6: after every resolved turn, each side's pressure is incremented by 1
when that side took positive (post-invincibility) damage and dealt none, and
otherwise decremented by 1 floored at 0; starting from non-negative pressure,
pressure never becomes negative. -/
theorem C6_pressure_update (t : ℕ) (player cpu : Fighter) (pc cc : Command)
    (h1 : 0 ≤ player.pressure) (h2 : 0 ≤ cpu.pressure) :
    ((resolve_turn t player cpu pc cc).player.pressure =
      if 0 < (resolve_turn t player cpu pc cc).outcome.p_delta ∧
          (resolve_turn t player cpu pc cc).player.dealt_damage_last_turn = false
      then player.pressure + 1 else max 0 (player.pressure - 1)) ∧
    ((resolve_turn t player cpu pc cc).cpu.pressure =
      if 0 < (resolve_turn t player cpu pc cc).outcome.c_delta ∧
          (resolve_turn t player cpu pc cc).cpu.dealt_damage_last_turn = false
      then cpu.pressure + 1 else max 0 (cpu.pressure - 1)) ∧
    0 ≤ (resolve_turn t player cpu pc cc).player.pressure ∧
    0 ≤ (resolve_turn t player cpu pc cc).cpu.pressure := by
  rw [resolve_turn_eq t player cpu pc cc]
  have hP := assemble_player t player cpu (eff_cmd player pc) (eff_cmd cpu cc)
    (inv_flag player) (inv_flag cpu)
  have hC := assemble_cpu t player cpu (eff_cmd player pc) (eff_cmd cpu cc)
    (inv_flag player) (inv_flag cpu)
  have hO := assemble_outcome t player cpu (eff_cmd player pc) (eff_cmd cpu cc)
    (inv_flag player) (inv_flag cpu)
  refine ⟨?_, ?_, ?_, ?_⟩
  · rw [hP.2.2.2.2.2.2, hO.2.2.2.1, hP.2.2.2.2.2.1]
  · rw [hC.2.2.2.2.2.2, hO.2.2.2.2, hC.2.2.2.2.2.1]
  · rw [hP.2.2.2.2.2.2]; split_ifs
    · omega
    · exact le_max_left 0 _
  · rw [hC.2.2.2.2.2.2]; split_ifs
    · omega
    · exact le_max_left 0 _

theorem C6_witness :
    0 ≤ ({ name := "P" } : Fighter).pressure ∧
    0 ≤ (resolve_turn 1 { name := "P" } { name := "C" } .ATTACK .IDLE).player.pressure ∧
    0 ≤ (resolve_turn 1 { name := "P" } { name := "C" } .ATTACK .IDLE).cpu.pressure := by
  refine ⟨by decide, ?_, ?_⟩
  · exact (C6_pressure_update 1 { name := "P" } { name := "C" } .ATTACK .IDLE
      (by decide) (by decide)).2.2.1
  · exact (C6_pressure_update 1 { name := "P" } { name := "C" } .ATTACK .IDLE
      (by decide) (by decide)).2.2.2

/-- C9: in a single call to the turn resolver, at most one of the two
pressures can increase (every damage-adding branch marks the dealing side),
each pressure rises by at most 1, and two sides both below the knockoff
threshold 4 can never both reach 4 in the same turn. -/
theorem C9_pressure_single_increment (t : ℕ) (player cpu : Fighter) (pc cc : Command)
    (h1 : 0 ≤ player.pressure) (h2 : 0 ≤ cpu.pressure)
    (h3 : player.pressure < 4) (h4 : cpu.pressure < 4) :
    ((resolve_turn t player cpu pc cc).player.pressure ≤ player.pressure ∨
     (resolve_turn t player cpu pc cc).cpu.pressure ≤ cpu.pressure) ∧
    (resolve_turn t player cpu pc cc).player.pressure ≤ player.pressure + 1 ∧
    (resolve_turn t player cpu pc cc).cpu.pressure ≤ cpu.pressure + 1 ∧
    ((resolve_turn t player cpu pc cc).player.pressure < 4 ∨
     (resolve_turn t player cpu pc cc).cpu.pressure < 4) := by
  rw [resolve_turn_eq t player cpu pc cc]
  have hP := (assemble_player t player cpu (eff_cmd player pc) (eff_cmd cpu cc)
    (inv_flag player) (inv_flag cpu)).2.2.2.2.2.2
  have hC := (assemble_cpu t player cpu (eff_cmd player pc) (eff_cmd cpu cc)
    (inv_flag player) (inv_flag cpu)).2.2.2.2.2.2
  have hDD : (0 < (effOf player cpu (eff_cmd player pc) (eff_cmd cpu cc)
        (inv_flag player) (inv_flag cpu)).p_damage →
      (effOf player cpu (eff_cmd player pc) (eff_cmd cpu cc)
        (inv_flag player) (inv_flag cpu)).c_dealt = true) ∧
      (0 < (effOf player cpu (eff_cmd player pc) (eff_cmd cpu cc)
        (inv_flag player) (inv_flag cpu)).c_damage →
      (effOf player cpu (eff_cmd player pc) (eff_cmd cpu cc)
        (inv_flag player) (inv_flag cpu)).p_dealt = true) :=
    turnEffects_dealt_of_damage (eff_cmd player pc) (eff_cmd cpu cc)
      player.character cpu.character (inv_flag player) (inv_flag cpu)
  have hm1 : max 0 (player.pressure - 1) ≤ player.pressure :=
    (max0_sub_bounds h1 (by norm_num)).2
  have hm2 : max 0 (cpu.pressure - 1) ≤ cpu.pressure :=
    (max0_sub_bounds h2 (by norm_num)).2
  rw [hP, hC]
  by_cases hpi : 0 < (effOf player cpu (eff_cmd player pc) (eff_cmd cpu cc)
      (inv_flag player) (inv_flag cpu)).p_damage ∧
      (effOf player cpu (eff_cmd player pc) (eff_cmd cpu cc)
        (inv_flag player) (inv_flag cpu)).p_dealt = false
  · have hci : ¬(0 < (effOf player cpu (eff_cmd player pc) (eff_cmd cpu cc)
        (inv_flag player) (inv_flag cpu)).c_damage ∧
        (effOf player cpu (eff_cmd player pc) (eff_cmd cpu cc)
          (inv_flag player) (inv_flag cpu)).c_dealt = false) := by
      rintro ⟨hcd, hcf⟩
      have := hDD.1 hpi.1
      rw [this] at hcf
      exact Bool.noConfusion hcf
    rw [if_pos hpi, if_neg hci]
    exact ⟨Or.inr hm2, le_refl _, hm2.trans (by omega), Or.inr (lt_of_le_of_lt hm2 h4)⟩
  · rw [if_neg hpi]
    refine ⟨Or.inl hm1, hm1.trans (by omega), ?_, Or.inl (lt_of_le_of_lt hm1 h3)⟩
    split_ifs
    · omega
    · exact hm2.trans (by omega)

theorem C9_witness :
    0 ≤ ({ name := "P" } : Fighter).pressure ∧ ({ name := "P" } : Fighter).pressure < 4 ∧
    ((resolve_turn 1 { name := "P" } { name := "C" } .ATTACK .IDLE).player.pressure < 4 ∨
     (resolve_turn 1 { name := "P" } { name := "C" } .ATTACK .IDLE).cpu.pressure < 4) := by
  refine ⟨by decide, by decide, ?_⟩
  exact (C9_pressure_single_increment 1 { name := "P" } { name := "C" } .ATTACK .IDLE
    (by decide) (by decide) (by decide) (by decide)).2.2.2

/-- C5: when both effective commands are Attack (no pending skips), the clash
deals zero base damage; each Ninja side still deals 0.5 hearts (= 1
half-heart) to the opponent; the damage is applied to hearts (floored at 0)
and no skip flag is set; for two Normal characters both pressures are
decremented by 1 floored at 0; and in the clash branch of the damage table an
invincible side's damage is zeroed. -/
theorem C5_clash (t : ℕ) (player cpu : Fighter) (i : Bool)
    (hp : player.skip_next = false) (hc : cpu.skip_next = false) :
    ((resolve_turn t player cpu .ATTACK .ATTACK).outcome.p_delta =
      if cpu.character = Character.PURPLE_NINJA then 1 else 0) ∧
    ((resolve_turn t player cpu .ATTACK .ATTACK).outcome.c_delta =
      if player.character = Character.PURPLE_NINJA then 1 else 0) ∧
    (resolve_turn t player cpu .ATTACK .ATTACK).player.skip_next = false ∧
    (resolve_turn t player cpu .ATTACK .ATTACK).cpu.skip_next = false ∧
    (resolve_turn t player cpu .ATTACK .ATTACK).player.hearts =
      max 0 (player.hearts - (resolve_turn t player cpu .ATTACK .ATTACK).outcome.p_delta) ∧
    (resolve_turn t player cpu .ATTACK .ATTACK).cpu.hearts =
      max 0 (cpu.hearts - (resolve_turn t player cpu .ATTACK .ATTACK).outcome.c_delta) ∧
    (if player.character = Character.NORMAL ∧ cpu.character = Character.NORMAL then
      (resolve_turn t player cpu .ATTACK .ATTACK).player.pressure =
        max 0 (player.pressure - 1) ∧
      (resolve_turn t player cpu .ATTACK .ATTACK).cpu.pressure =
        max 0 (cpu.pressure - 1)
     else True) ∧
    (turnEffects .ATTACK .ATTACK player.character cpu.character true i).p_damage = 0 ∧
    (turnEffects .ATTACK .ATTACK player.character cpu.character i true).c_damage = 0 := by
  have hE := turnEffects_clash player.character cpu.character
  have hI := turnEffects_clash_invincible player.character cpu.character i
  have hO := assemble_outcome t player cpu .ATTACK .ATTACK false false
  have hP := assemble_player t player cpu .ATTACK .ATTACK false false
  have hC := assemble_cpu t player cpu .ATTACK .ATTACK false false
  refine ⟨?_, ?_, ?_, ?_, ?_, ?_, ?_, hI.1, hI.2⟩
  · rw [resolve_turn_no_skip t player cpu .ATTACK .ATTACK hp hc, hO.2.2.2.1]
    exact hE.1
  · rw [resolve_turn_no_skip t player cpu .ATTACK .ATTACK hp hc, hO.2.2.2.2]
    exact hE.2.1
  · rw [resolve_turn_no_skip t player cpu .ATTACK .ATTACK hp hc, hP.2.2.2.1]
    exact hE.2.2.1
  · rw [resolve_turn_no_skip t player cpu .ATTACK .ATTACK hp hc, hC.2.2.2.1]
    exact hE.2.2.2.1
  · rw [resolve_turn_no_skip t player cpu .ATTACK .ATTACK hp hc, hP.2.2.1, hO.2.2.2.1]
  · rw [resolve_turn_no_skip t player cpu .ATTACK .ATTACK hp hc, hC.2.2.1, hO.2.2.2.2]
  · split_ifs with hn
    · constructor
      · rw [resolve_turn_no_skip t player cpu .ATTACK .ATTACK hp hc, hP.2.2.2.2.2.2]
        have hz : (effOf player cpu .ATTACK .ATTACK false false).p_damage = 0 := by
          rw [show (effOf player cpu .ATTACK .ATTACK false false).p_damage =
            (if cpu.character = Character.PURPLE_NINJA then 1 else 0) from hE.1, hn.2]
          simp
        rw [if_neg]
        rintro ⟨hlt, -⟩
        rw [hz] at hlt
        exact lt_irrefl 0 hlt
      · rw [resolve_turn_no_skip t player cpu .ATTACK .ATTACK hp hc, hC.2.2.2.2.2.2]
        have hz : (effOf player cpu .ATTACK .ATTACK false false).c_damage = 0 := by
          rw [show (effOf player cpu .ATTACK .ATTACK false false).c_damage =
            (if player.character = Character.PURPLE_NINJA then 1 else 0) from hE.2.1, hn.1]
          simp
        rw [if_neg]
        rintro ⟨hlt, -⟩
        rw [hz] at hlt
        exact lt_irrefl 0 hlt

theorem C5_witness :
    ({ name := "P" } : Fighter).skip_next = false ∧
    ({ name := "C" } : Fighter).skip_next = false ∧
    (resolve_turn 1 { name := "P" } { name := "C" } .ATTACK .ATTACK).outcome.p_delta = 0 := by
  refine ⟨rfl, rfl, ?_⟩
  have h := (C5_clash 1 { name := "P" } { name := "C" } false rfl rfl).1
  simpa using h

/-- Player-side forced-skip facts: `cpu` (and its skip flag) arbitrary. -/
theorem forced_skip_player (t : ℕ) (player cpu : Fighter) (pc cc : Command)
    (hp : player.skip_next = true) (hh : 0 ≤ player.hearts) :
    (resolve_turn t player cpu pc cc).outcome.p_cmd = Command.NONE ∧
    (resolve_turn t player cpu pc cc).player.skip_next = false ∧
    (resolve_turn t player cpu pc cc).player.skip_reason = none ∧
    ((resolve_turn t player cpu pc cc).outcome.p_delta =
      if player.character = Character.BLUE_HIJUMP ∧ player.skip_reason = some "failed_counter"
      then 0 else (if eff_cmd cpu cc = Command.ATTACK then 2 else 0)) ∧
    ((resolve_turn t player cpu pc cc).player.hearts =
      if player.character = Character.BLUE_HIJUMP ∧ player.skip_reason = some "failed_counter"
      then player.hearts
      else max 0 (player.hearts - (if eff_cmd cpu cc = Command.ATTACK then 2 else 0))) := by
  have hec : eff_cmd player pc = Command.NONE := by simp [eff_cmd, hp]
  have hip : inv_flag player =
      (player.character == Character.BLUE_HIJUMP && player.skip_reason == some "failed_counter") := by
    simp [inv_flag, hp]
  rw [resolve_turn_eq t player cpu pc cc, hec, hip]
  by_cases hb : player.character = Character.BLUE_HIJUMP ∧
      player.skip_reason = some "failed_counter"
  · have hB : (player.character == Character.BLUE_HIJUMP &&
        player.skip_reason == some "failed_counter") = true := by
      rw [hb.1, hb.2]
      decide
    rw [hB]
    have hFS := (turnEffects_forced_skip (eff_cmd cpu cc) player.character cpu.character
      (inv_flag cpu)).1
    have hO := assemble_outcome t player cpu Command.NONE (eff_cmd cpu cc) true (inv_flag cpu)
    have hP := assemble_player t player cpu Command.NONE (eff_cmd cpu cc) true (inv_flag cpu)
    refine ⟨hO.2.1, ?_, ?_, ?_, ?_⟩
    · rw [hP.2.2.2.1]; exact hFS.2
    · rw [hP.2.2.2.2.1,
        show (effOf player cpu Command.NONE (eff_cmd cpu cc) true
          (inv_flag cpu)).p_failed_counter = false from hFS.2]
      rfl
    · rw [if_pos hb, hO.2.2.2.1]; exact hFS.1
    · rw [if_pos hb, hP.2.2.1,
        show (effOf player cpu Command.NONE (eff_cmd cpu cc) true
          (inv_flag cpu)).p_damage = 0 from hFS.1,
        sub_zero, max_eq_right hh]
  · have hB : (player.character == Character.BLUE_HIJUMP &&
        player.skip_reason == some "failed_counter") = false := by
      cases hB0 : (player.character == Character.BLUE_HIJUMP &&
          player.skip_reason == some "failed_counter") with
      | false => rfl
      | true =>
        exfalso
        apply hb
        simpa [Bool.and_eq_true, beq_iff_eq] using hB0
    rw [hB]
    have hFS := (turnEffects_forced_skip (eff_cmd cpu cc) player.character cpu.character
      (inv_flag cpu)).2
    have hO := assemble_outcome t player cpu Command.NONE (eff_cmd cpu cc) false (inv_flag cpu)
    have hP := assemble_player t player cpu Command.NONE (eff_cmd cpu cc) false (inv_flag cpu)
    refine ⟨hO.2.1, ?_, ?_, ?_, ?_⟩
    · rw [hP.2.2.2.1]; exact hFS.2
    · rw [hP.2.2.2.2.1,
        show (effOf player cpu Command.NONE (eff_cmd cpu cc) false
          (inv_flag cpu)).p_failed_counter = false from hFS.2]
      rfl
    · rw [if_neg hb, hO.2.2.2.1]; exact hFS.1
    · rw [if_neg hb, hP.2.2.1,
        show (effOf player cpu Command.NONE (eff_cmd cpu cc) false (inv_flag cpu)).p_damage =
          (if eff_cmd cpu cc = Command.ATTACK then 2 else 0) from hFS.1]

/-- Cpu-side forced-skip facts: `player` (and its skip flag) arbitrary. -/
theorem forced_skip_cpu (t : ℕ) (player cpu : Fighter) (pc cc : Command)
    (hc : cpu.skip_next = true) (hh : 0 ≤ cpu.hearts) :
    (resolve_turn t player cpu pc cc).outcome.c_cmd = Command.NONE ∧
    (resolve_turn t player cpu pc cc).cpu.skip_next = false ∧
    (resolve_turn t player cpu pc cc).cpu.skip_reason = none ∧
    ((resolve_turn t player cpu pc cc).outcome.c_delta =
      if cpu.character = Character.BLUE_HIJUMP ∧ cpu.skip_reason = some "failed_counter"
      then 0 else (if eff_cmd player pc = Command.ATTACK then 2 else 0)) ∧
    ((resolve_turn t player cpu pc cc).cpu.hearts =
      if cpu.character = Character.BLUE_HIJUMP ∧ cpu.skip_reason = some "failed_counter"
      then cpu.hearts
      else max 0 (cpu.hearts - (if eff_cmd player pc = Command.ATTACK then 2 else 0))) := by
  have hec : eff_cmd cpu cc = Command.NONE := by simp [eff_cmd, hc]
  have hic : inv_flag cpu =
      (cpu.character == Character.BLUE_HIJUMP && cpu.skip_reason == some "failed_counter") := by
    simp [inv_flag, hc]
  rw [resolve_turn_eq t player cpu pc cc, hec, hic]
  by_cases hb : cpu.character = Character.BLUE_HIJUMP ∧
      cpu.skip_reason = some "failed_counter"
  · have hB : (cpu.character == Character.BLUE_HIJUMP &&
        cpu.skip_reason == some "failed_counter") = true := by
      rw [hb.1, hb.2]
      decide
    rw [hB]
    have hFS := (turnEffects_forced_skip_cpu (eff_cmd player pc) player.character cpu.character
      (inv_flag player)).1
    have hO := assemble_outcome t player cpu (eff_cmd player pc) Command.NONE (inv_flag player) true
    have hC := assemble_cpu t player cpu (eff_cmd player pc) Command.NONE (inv_flag player) true
    refine ⟨hO.2.2.1, ?_, ?_, ?_, ?_⟩
    · rw [hC.2.2.2.1]; exact hFS.2
    · rw [hC.2.2.2.2.1,
        show (effOf player cpu (eff_cmd player pc) Command.NONE (inv_flag player)
          true).c_failed_counter = false from hFS.2]
      rfl
    · rw [if_pos hb, hO.2.2.2.2]; exact hFS.1
    · rw [if_pos hb, hC.2.2.1,
        show (effOf player cpu (eff_cmd player pc) Command.NONE (inv_flag player)
          true).c_damage = 0 from hFS.1,
        sub_zero, max_eq_right hh]
  · have hB : (cpu.character == Character.BLUE_HIJUMP &&
        cpu.skip_reason == some "failed_counter") = false := by
      cases hB0 : (cpu.character == Character.BLUE_HIJUMP &&
          cpu.skip_reason == some "failed_counter") with
      | false => rfl
      | true =>
        exfalso
        apply hb
        simpa [Bool.and_eq_true, beq_iff_eq] using hB0
    rw [hB]
    have hFS := (turnEffects_forced_skip_cpu (eff_cmd player pc) player.character cpu.character
      (inv_flag player)).2
    have hO := assemble_outcome t player cpu (eff_cmd player pc) Command.NONE (inv_flag player) false
    have hC := assemble_cpu t player cpu (eff_cmd player pc) Command.NONE (inv_flag player) false
    refine ⟨hO.2.2.1, ?_, ?_, ?_, ?_⟩
    · rw [hC.2.2.2.1]; exact hFS.2
    · rw [hC.2.2.2.2.1,
        show (effOf player cpu (eff_cmd player pc) Command.NONE (inv_flag player)
          false).c_failed_counter = false from hFS.2]
      rfl
    · rw [if_neg hb, hO.2.2.2.2]; exact hFS.1
    · rw [if_neg hb, hC.2.2.1,
        show (effOf player cpu (eff_cmd player pc) Command.NONE (inv_flag player)
          false).c_damage =
          (if eff_cmd player pc = Command.ATTACK then 2 else 0) from hFS.1]

/-- C4: for any call in which a fighter's `skip_next` is set — either side,
the opponent's flag arbitrary (so double-recovery calls are covered) — that
fighter's effective command becomes ForcedSkip (`NONE`) whatever was
planned; invincibility (damage to that side zeroed, hearts unchanged) is
granted iff the character is Hi-Jump and the skip reason is
"failed_counter" — otherwise an opponent's effective Attack still deals a
full 1 heart (= 2 half-hearts) — and the skip flags are consumed by the same
call, so no fighter has two consecutive resolved turns forced from a single
failed counter.  The first five conjuncts treat the player as the skipping
fighter (with `cpu` arbitrary, game_logic.py lines 103-108), the last five
the cpu (with `player2` arbitrary, lines 110-115). -/
theorem C4_forced_skip (t : ℕ) (player cpu player2 cpu2 : Fighter)
    (pc cc pc2 cc2 : Command)
    (hp : player.skip_next = true) (hh : 0 ≤ player.hearts)
    (hc2 : cpu2.skip_next = true) (hh2 : 0 ≤ cpu2.hearts) :
    (resolve_turn t player cpu pc cc).outcome.p_cmd = Command.NONE ∧
    (resolve_turn t player cpu pc cc).player.skip_next = false ∧
    (resolve_turn t player cpu pc cc).player.skip_reason = none ∧
    ((resolve_turn t player cpu pc cc).outcome.p_delta =
      if player.character = Character.BLUE_HIJUMP ∧ player.skip_reason = some "failed_counter"
      then 0 else (if eff_cmd cpu cc = Command.ATTACK then 2 else 0)) ∧
    ((resolve_turn t player cpu pc cc).player.hearts =
      if player.character = Character.BLUE_HIJUMP ∧ player.skip_reason = some "failed_counter"
      then player.hearts
      else max 0 (player.hearts - (if eff_cmd cpu cc = Command.ATTACK then 2 else 0))) ∧
    (resolve_turn t player2 cpu2 pc2 cc2).outcome.c_cmd = Command.NONE ∧
    (resolve_turn t player2 cpu2 pc2 cc2).cpu.skip_next = false ∧
    (resolve_turn t player2 cpu2 pc2 cc2).cpu.skip_reason = none ∧
    ((resolve_turn t player2 cpu2 pc2 cc2).outcome.c_delta =
      if cpu2.character = Character.BLUE_HIJUMP ∧ cpu2.skip_reason = some "failed_counter"
      then 0 else (if eff_cmd player2 pc2 = Command.ATTACK then 2 else 0)) ∧
    ((resolve_turn t player2 cpu2 pc2 cc2).cpu.hearts =
      if cpu2.character = Character.BLUE_HIJUMP ∧ cpu2.skip_reason = some "failed_counter"
      then cpu2.hearts
      else max 0 (cpu2.hearts - (if eff_cmd player2 pc2 = Command.ATTACK then 2 else 0))) := by
  obtain ⟨a1, a2, a3, a4, a5⟩ := forced_skip_player t player cpu pc cc hp hh
  obtain ⟨b1, b2, b3, b4, b5⟩ := forced_skip_cpu t player2 cpu2 pc2 cc2 hc2 hh2
  exact ⟨a1, a2, a3, a4, a5, b1, b2, b3, b4, b5⟩

/-- A recovering Hi-Jump fighter, used to instantiate hypotheses. -/
def recoveringHiJump : Fighter :=
  { name := "P", character := Character.BLUE_HIJUMP, skip_next := true,
    skip_reason := some "failed_counter" }

theorem C4_witness :
    recoveringHiJump.skip_next = true ∧
    0 ≤ recoveringHiJump.hearts ∧
    (resolve_turn 1 recoveringHiJump { name := "C" } .BLOCK .ATTACK).outcome.p_cmd =
      Command.NONE := by
  refine ⟨rfl, by decide, ?_⟩
  exact (C4_forced_skip 1 recoveringHiJump { name := "C" } { name := "P3" }
    recoveringHiJump .BLOCK .ATTACK .ATTACK .BLOCK rfl (by decide) rfl (by decide)).1

/-- C8: a fighter starts at 3 hearts (= 6 half-hearts); one resolved turn
never increases hearts and keeps them ≥ 0 and ≤ their ceiling; the whole
turn loop therefore keeps both fighters' hearts within [0, 3] and
non-increasing.  (Every change is an integral number of half-hearts by the
exactness of the half-heart encoding.) -/
theorem C8_hearts_invariant (nm : String) (ch : Character)
    (t : ℕ) (player cpu : Fighter) (pc cc : Command)
    (pp cp : List Command) (n t0 : ℕ) (log : List String) (w : Option String) (r : String)
    (hp : 0 ≤ player.hearts) (hc : 0 ≤ cpu.hearts)
    (hp6 : player.hearts ≤ 6) (hc6 : cpu.hearts ≤ 6) :
    ({ name := nm, character := ch } : Fighter).hearts = 6 ∧
    (0 ≤ (resolve_turn t player cpu pc cc).player.hearts ∧
     (resolve_turn t player cpu pc cc).player.hearts ≤ player.hearts ∧
     (resolve_turn t player cpu pc cc).player.hearts ≤ 6) ∧
    (0 ≤ (resolve_turn t player cpu pc cc).cpu.hearts ∧
     (resolve_turn t player cpu pc cc).cpu.hearts ≤ cpu.hearts ∧
     (resolve_turn t player cpu pc cc).cpu.hearts ≤ 6) ∧
    (battleLoop pp cp n t0 player cpu log w r).elim True (fun lr =>
      0 ≤ lr.player.hearts ∧ lr.player.hearts ≤ player.hearts ∧ lr.player.hearts ≤ 6 ∧
      0 ≤ lr.cpu.hearts ∧ lr.cpu.hearts ≤ cpu.hearts ∧ lr.cpu.hearts ≤ 6) := by
  have hb := resolve_turn_hearts_bounds t player cpu pc cc hp hc
  have hl := battleLoop_hearts pp cp n t0 player cpu log w r hp hc
  refine ⟨rfl, ⟨hb.1.1, hb.1.2, hb.1.2.trans hp6⟩, ⟨hb.2.1, hb.2.2, hb.2.2.trans hc6⟩, ?_⟩
  cases hres : battleLoop pp cp n t0 player cpu log w r with
  | none => simp
  | some lr =>
    rw [hres] at hl
    simp only [Option.elim] at hl ⊢
    exact ⟨hl.1, hl.2.1, hl.2.1.trans hp6, hl.2.2.1, hl.2.2.2, hl.2.2.2.trans hc6⟩

theorem C8_witness :
    0 ≤ ({ name := "P" } : Fighter).hearts ∧ ({ name := "P" } : Fighter).hearts ≤ 6 ∧
    ({ name := "Q", character := Character.NORMAL } : Fighter).hearts = 6 := by
  refine ⟨by decide, by decide, ?_⟩
  exact (C8_hearts_invariant "Q" Character.NORMAL 1 { name := "P" } { name := "C" }
    .ATTACK .IDLE [] [] 0 0 [] none "Battle ended."
    (by decide) (by decide) (by decide) (by decide)).1

/-- `run_battle` always produces a result when both plans hold at least 12
commands (the loop can then never read past a plan's end). -/
theorem run_battle_isSome (pn cn : String) (pp cp : List Command) (pch cch : Character)
    (seed : Option ℕ) (sb : ℕ → Bool) (ab : Bool)
    (h1 : 12 ≤ pp.length) (h2 : 12 ≤ cp.length) :
    (run_battle pn cn pp cp pch cch seed sb ab).isSome = true := by
  have h := battleLoop_isSome pp cp 12 0 { name := pn, character := pch }
    { name := cn, character := cch } [] none "Battle ended." (by omega) (by omega)
  unfold run_battle
  cases hlr : battleLoop pp cp 12 0 { name := pn, character := pch }
      { name := cn, character := cch } [] none "Battle ended." with
  | none => rw [hlr] at h; simp at h
  | some lr =>
    simp only [hlr]
    split_ifs <;> rfl

/-- C7: with two 12-command plans the match always yields a result; the
winner is `none` exactly for a double KO; every result is one of the five
loop verdicts or a sudden-death verdict, and the sudden-death winner follows
the single random bit (the seeded draw when a seed was supplied); the
termination checks prioritise double KO over single KO over pressure, with
the opponent's pressure checked first; and as soon as the post-turn check
fires, the loop returns that verdict immediately, resolving no further
turn. -/
theorem C7_match_termination (pn cn : String) (pch cch : Character)
    (pp cp : List Command) (seed : Option ℕ) (sb : ℕ → Bool) (ab : Bool)
    (f1 g1 f2 g2 : Fighter)
    (pp2 cp2 : List Command) (n2 t2 : ℕ) (pA cA : Fighter) (log2 : List String)
    (w2 : Option String) (r2 : String) (pcA ccA : Command) (wrA : Option String × String)
    (h1 : pp.length = 12) (h2 : cp.length = 12)
    (hf1 : f1.hearts ≤ 0) (hg1 : g1.hearts ≤ 0)
    (hf2 : 0 < f2.hearts) (hg2 : 0 < g2.hearts) (hq2 : 4 ≤ g2.pressure)
    (ha : pp2[t2]? = some pcA) (hb : cp2[t2]? = some ccA)
    (hcheck : check_termination (resolve_turn (t2 + 1) pA cA pcA ccA).player
        (resolve_turn (t2 + 1) pA cA pcA ccA).cpu = some wrA) :
    (run_battle pn cn pp cp pch cch seed sb ab).isSome = true ∧
    (run_battle pn cn pp cp pch cch seed sb ab).elim False (fun br =>
      (br.winner = none ↔ br.reason = "Double KO!") ∧
      (br.winner = none ∨ br.winner = some pn ∨ br.winner = some cn) ∧
      (br.reason = "Double KO!" ∨ br.reason = "Opponent hearts reached 0." ∨
       br.reason = "Player hearts reached 0." ∨
       br.reason = "Opponent was knocked off the stage (pressure)." ∨
       br.reason = "Player was knocked off the stage (pressure)." ∨
       (br.reason = "Sudden Death KO strike landed by player." ∧ br.winner = some pn ∧
         seed.elim ab sb = true) ∨
       (br.reason = "Sudden Death KO strike landed by CPU." ∧ br.winner = some cn ∧
         seed.elim ab sb = false))) ∧
    check_termination f1 g1 = some (none, "Double KO!") ∧
    check_termination f2 g2 =
      some (some f2.name, "Opponent was knocked off the stage (pressure).") ∧
    battleLoop pp2 cp2 (n2 + 1) t2 pA cA log2 w2 r2 =
      some ⟨(resolve_turn (t2 + 1) pA cA pcA ccA).player,
            (resolve_turn (t2 + 1) pA cA pcA ccA).cpu,
            log2 ++ turn_log (resolve_turn (t2 + 1) pA cA pcA ccA).outcome
              (resolve_turn (t2 + 1) pA cA pcA ccA).player
              (resolve_turn (t2 + 1) pA cA pcA ccA).cpu,
            wrA.1, wrA.2⟩ := by
  refine ⟨run_battle_isSome pn cn pp cp pch cch seed sb ab (by omega) (by omega),
    ?_, ?_, ?_, ?_⟩
  · obtain ⟨lr, hlr, hn1, hn2, hdisj⟩ := battleLoop_char pp cp 12 0
      { name := pn, character := pch } { name := cn, character := cch } []
      (show (0:ℤ) < 6 by norm_num) (show (0:ℤ) < 6 by norm_num)
      (show (0:ℤ) < 4 by norm_num) (show (0:ℤ) < 4 by norm_num) (by omega) (by omega)
    have s1 : ("Sudden Death KO strike landed by player." : String) = "Double KO!" → False := by
      decide
    have s2 : ("Sudden Death KO strike landed by CPU." : String) = "Double KO!" → False := by
      decide
    have s3 : ("Opponent hearts reached 0." : String) = "Double KO!" → False := by decide
    have s4 : ("Opponent was knocked off the stage (pressure)." : String) = "Double KO!" →
        False := by decide
    have s5 : ("Player hearts reached 0." : String) = "Double KO!" → False := by decide
    have s6 : ("Player was knocked off the stage (pressure)." : String) = "Double KO!" →
        False := by decide
    unfold run_battle
    simp only [hlr]
    rcases hdisj with h | h | h | h
    · rw [if_pos ⟨h.1, h.2.2.1, h.2.2.2⟩]
      by_cases hcoin : seed.elim ab sb = true
      · rw [if_pos hcoin]
        refine ⟨⟨fun h' => Option.noConfusion h', fun h' => absurd h' s1⟩,
          Or.inr (Or.inl (congrArg some (hn1.trans rfl))), ?_⟩
        exact Or.inr (Or.inr (Or.inr (Or.inr (Or.inr (Or.inl
          ⟨rfl, congrArg some (hn1.trans rfl), hcoin⟩)))))
      · rw [if_neg hcoin]
        have hcoin2 : seed.elim ab sb = false := Bool.eq_false_iff.mpr hcoin
        refine ⟨⟨fun h' => Option.noConfusion h', fun h' => absurd h' s2⟩,
          Or.inr (Or.inr (congrArg some (hn2.trans rfl))), ?_⟩
        exact Or.inr (Or.inr (Or.inr (Or.inr (Or.inr (Or.inr
          ⟨rfl, congrArg some (hn2.trans rfl), hcoin2⟩)))))
    · rw [if_neg (by rintro ⟨-, hh, -⟩; have := h.2.2.1; omega)]
      exact ⟨⟨fun _ => h.2.1, fun _ => h.1⟩, Or.inl h.1, Or.inl h.2.1⟩
    · rw [if_neg (by rintro ⟨hwn, -⟩; rw [h.1] at hwn; exact Option.noConfusion hwn)]
      refine ⟨⟨fun h' => by rw [h.1] at h'; exact Option.noConfusion h', fun h' => ?_⟩,
        Or.inr (Or.inl (h.1.trans rfl)), ?_⟩
      · rcases h.2 with hr | hr
        · rw [hr] at h'; exact absurd h' s3
        · rw [hr] at h'; exact absurd h' s4
      · rcases h.2 with hr | hr
        · exact Or.inr (Or.inl hr)
        · exact Or.inr (Or.inr (Or.inr (Or.inl hr)))
    · rw [if_neg (by rintro ⟨hwn, -⟩; rw [h.1] at hwn; exact Option.noConfusion hwn)]
      refine ⟨⟨fun h' => by rw [h.1] at h'; exact Option.noConfusion h', fun h' => ?_⟩,
        Or.inr (Or.inr (h.1.trans rfl)), ?_⟩
      · rcases h.2 with hr | hr
        · rw [hr] at h'; exact absurd h' s5
        · rw [hr] at h'; exact absurd h' s6
      · rcases h.2 with hr | hr
        · exact Or.inr (Or.inr (Or.inl hr))
        · exact Or.inr (Or.inr (Or.inr (Or.inr (Or.inl hr))))
  · unfold check_termination
    rw [if_pos ⟨hf1, hg1⟩]
  · unfold check_termination
    rw [if_neg (by omega : ¬(f2.hearts ≤ 0 ∧ g2.hearts ≤ 0)),
      if_neg (by omega : ¬g2.hearts ≤ 0), if_neg (by omega : ¬f2.hearts ≤ 0),
      if_pos hq2]
  · rw [battleLoop, ha, hb]
    simp only [hcheck]

theorem C7_witness :
    (run_battle "P" "C" (List.replicate 12 Command.IDLE) (List.replicate 12 Command.IDLE)
      Character.NORMAL Character.NORMAL (some 0) (fun _ => true) true).isSome = true :=
  (C7_match_termination "P" "C" Character.NORMAL Character.NORMAL
    (List.replicate 12 Command.IDLE) (List.replicate 12 Command.IDLE) (some 0)
    (fun _ => true) true
    { name := "A", hearts := 0 } { name := "B", hearts := 0 }
    { name := "F" } { name := "G", pressure := 4 }
    [Command.ATTACK] [Command.IDLE] 0 0
    { name := "P2" } { name := "C2", hearts := 1 } [] none "Battle ended."
    Command.ATTACK Command.IDLE (some "P2", "Opponent hearts reached 0.")
    (by decide) (by decide) (by decide) (by decide) (by decide) (by decide) (by decide)
    rfl rfl rfl).1

/-- C10: with a fixed (non-`None`) seed, `run_battle` is independent of the
ambient random state — two invocations with identical names, characters,
12-slot plans and seed return identical `BattleResult`s (same winner, reason
and log), and a result is always produced. -/
theorem C10_determinism (pn cn : String) (pp cp : List Command) (pch cch : Character)
    (s : ℕ) (sb : ℕ → Bool) (a1 a2 : Bool)
    (h1 : pp.length = 12) (h2 : cp.length = 12) :
    run_battle pn cn pp cp pch cch (some s) sb a1 =
      run_battle pn cn pp cp pch cch (some s) sb a2 ∧
    (run_battle pn cn pp cp pch cch (some s) sb a1).isSome = true := by
  constructor
  · rfl
  · exact run_battle_isSome pn cn pp cp pch cch (some s) sb a1 (by omega) (by omega)

theorem C10_witness :
    run_battle "P" "C" (List.replicate 12 Command.ATTACK) (List.replicate 12 Command.BLOCK)
        Character.NORMAL Character.NORMAL (some 7) (fun n => n % 2 == 0) true =
      run_battle "P" "C" (List.replicate 12 Command.ATTACK) (List.replicate 12 Command.BLOCK)
        Character.NORMAL Character.NORMAL (some 7) (fun n => n % 2 == 0) false :=
  (C10_determinism "P" "C" (List.replicate 12 Command.ATTACK)
    (List.replicate 12 Command.BLOCK) Character.NORMAL Character.NORMAL 7
    (fun n => n % 2 == 0) true false (by decide) (by decide)).1

/-- C1 counterexample: the claim says a plan containing a planner-illegal
`ForcedSkip` (`NONE`) command makes `run_battle` signal a violation before
any turn is resolved; in fact `run_battle` performs no validation at all — a
12-command plan consisting entirely of `NONE` commands is resolved to a
normal `BattleResult` with no error signaled. -/
theorem C1_counterexample :
    (run_battle "P" "C" (List.replicate 12 Command.NONE) (List.replicate 12 Command.IDLE)
      Character.NORMAL Character.NORMAL (some 0) (fun _ => true) true).isSome = true := by
  rfl

/-- C1 (amended): `run_battle` performs no plan validation.  Any two plans
holding at least 12 commands — including plans containing the
planner-illegal `ForcedSkip`/`NONE` command — are resolved without any error
being signaled, and commands beyond the twelfth are silently ignored (the
result equals the result on the plans truncated to their first 12 commands);
an error can arise only for a plan shorter than 12 commands, surfacing as a
missing-index failure inside the loop rather than an up-front check. -/
theorem C1_amended_no_validation (pn cn : String) (pp cp : List Command)
    (pch cch : Character) (seed : Option ℕ) (sb : ℕ → Bool) (ab : Bool)
    (h1 : 12 ≤ pp.length) (h2 : 12 ≤ cp.length) :
    (run_battle pn cn pp cp pch cch seed sb ab).isSome = true ∧
    run_battle pn cn pp cp pch cch seed sb ab =
      run_battle pn cn (pp.take 12) (cp.take 12) pch cch seed sb ab := by
  refine ⟨run_battle_isSome pn cn pp cp pch cch seed sb ab h1 h2, ?_⟩
  unfold run_battle
  dsimp only
  rw [battleLoop_take12 pp cp 12 0 { name := pn, character := pch }
    { name := cn, character := cch } [] none "Battle ended." (by omega)]

theorem C1_witness :
    (run_battle "P" "C" (List.replicate 13 Command.IDLE) (List.replicate 13 Command.IDLE)
      Character.NORMAL Character.NORMAL (some 0) (fun _ => true) true).isSome = true :=
  (C1_amended_no_validation "P" "C" (List.replicate 13 Command.IDLE)
    (List.replicate 13 Command.IDLE) Character.NORMAL Character.NORMAL (some 0)
    (fun _ => true) true (by decide) (by decide)).1
